import Mathlib

/-!
# Meme editor front end (`frontend/script.js`)

A shallow embedding of the layer store, the drag handler, the coordinate
transform of `generateMeme` and the polling loop of `pollStatus`.

Modelling conventions.

* The module-level variables of the script (`currentTemplate`, `layers`,
  `activeLayerId`, `layerCounter`, `isDragging`, `dragOffsetX`, `dragOffsetY`,
  `dragTargetId`) are the fields of `Editor`, together with the parts of the
  page the handlers write to (controls, result view, timers, requests, alerts).
* A JavaScript number is a rational, or an infinity, or NaN (`JsNum`). The
  arithmetic of `generateMeme` rounds every result to the nearest binary64
  value, ties to even (`binary64`); the sign of zero is not modelled. The
  pointer arithmetic of the drag handler is kept exact.
* Geometry computed by the browser (`getBoundingClientRect`, `offsetWidth`,
  `naturalWidth`, `complete`) is an input of the handler that reads it.
* The identifier `Date.now() + Math.random()` is an input of `addNewLayer`.
* A network answer is an input of the handler that awaits it.
-/

namespace MemeEditor

/-! ## JavaScript values -/

/-- A JavaScript number: a finite value, a signed infinity, or NaN. -/
inductive JsNum where
  | fin (q : ℚ)
  | inf (neg : Bool)
  | nan
deriving DecidableEq

/-- The nearest integer to `m`, a tie going to the even neighbour. -/
def roundHalfEven (m : ℚ) : ℤ :=
  let f : ℤ := ⌊m⌋
  if m - f < 1 / 2 then f
  else if 1 / 2 < m - f then f + 1
  else if f % 2 = 0 then f else f + 1

/-- The exponent of the spacing of binary64 values around a non-zero `q`: 52
below the exponent of `q` for a normal value, `-1074` in the subnormal range. -/
def ulpExp (q : ℚ) : ℤ :=
  max (Int.log 2 |q| - 52) (-1074)

/-- The binary64 value of an exact result `q`: rounded to the nearest multiple
of the spacing, ties to even, and an infinity when the rounded value reaches
`2 ^ 1024`. -/
def binary64 (q : ℚ) : JsNum :=
  if q = 0 then .fin 0
  else
    let r : ℚ := (roundHalfEven (q / (2 : ℚ) ^ ulpExp q) : ℚ) * (2 : ℚ) ^ ulpExp q
    if (2 : ℚ) ^ (1024 : ℕ) ≤ |r| then .inf (decide (q < 0)) else .fin r

/-- The product `a * b` of two JavaScript numbers. -/
def JsNum.mul : JsNum → JsNum → JsNum
  | .fin a, .fin b => binary64 (a * b)
  | .fin a, .inf n => if a = 0 then .nan else .inf (xor n (decide (a < 0)))
  | .inf n, .fin b => if b = 0 then .nan else .inf (xor n (decide (b < 0)))
  | .inf n, .inf m => .inf (xor n m)
  | .nan, _ => .nan
  | _, .nan => .nan

/-- The quotient `a / b` of two non-negative integers (`naturalWidth`,
`offsetWidth`), as JavaScript computes it. -/
def jsDivNat (a b : ℕ) : JsNum :=
  if b = 0 then (if a = 0 then .nan else .inf false) else binary64 ((a : ℚ) / (b : ℚ))

/-- `Math.round`: the nearest integer, a half going up; infinities and NaN are
returned as they are. -/
def mathRound : JsNum → JsNum
  | .fin q => .fin ((⌊q + 1 / 2⌋ : ℤ) : ℚ)
  | x => x

/-- A value read from a form control or stored in a layer: a number or a
string. -/
inductive JsVal where
  | num (q : ℚ)
  | str (s : String)
deriving DecidableEq

/-- The conversions of the language that the script relies on and that are not
part of the repository. -/
structure JsBuiltins where
  /-- `Number(s)` for a string `s`. -/
  strToNum : String → JsNum
  /-- The global `parseInt`. -/
  parseInt : JsVal → JsNum

/-- The numeric coercion applied by `*`. -/
def toNumber (b : JsBuiltins) : JsVal → JsNum
  | .num q => .fin q
  | .str s => b.strToNum s

/-! ## Data model -/

/-- A template as returned by `GET /templates`. -/
structure Template where
  id : ℕ
  name : String
  url : String
deriving DecidableEq

/-- The text stroke of a handle: `0px`, or `2px` of a colour. -/
inductive Stroke where
  | none
  | px2 (color : JsVal)
deriving DecidableEq

/-- The `div.meme-text-layer` element of a layer. `fontSize` and `left`, `top`
hold the value in front of `px`; `opacity` holds the percentage that the script
divides by 100. -/
structure Element where
  innerText : JsVal
  fontSize : JsVal
  color : JsVal
  opacity : JsVal
  webkitTextStroke : Stroke
  left : ℚ
  top : ℚ
  active : Bool
deriving DecidableEq

/-- An entry of `layers`. -/
structure Layer where
  id : ℕ
  text : JsVal
  size : JsVal
  color : JsVal
  opacity : JsVal
  borderColor : JsVal
  element : Element
deriving DecidableEq

/-- The form controls of the page. -/
structure Controls where
  ctrlText : JsVal
  ctrlSize : JsVal
  ctrlColor : JsVal
  ctrlOpacity : JsVal
  ctrlBorderColor : JsVal
  ctrlBorderColorDisabled : Bool
  textBorderChecked : Bool
  layerControlsEnabled : Bool
deriving DecidableEq

/-- The `elevator-sound` audio element. -/
structure Audio where
  playing : Bool
  currentTime : ℚ
deriving DecidableEq

/-- The result overlay. -/
structure ResultView where
  overlayDisplay : String
  loaderDisplay : String
  imgDisplay : String
  imgSrc : Option String
  statusText : String
deriving DecidableEq

/-- An interval created by `setInterval` in `pollStatus`; `active` becomes false
at `clearInterval`. `taskId` is `none` when `data.task_id` was undefined. -/
structure Timer where
  taskId : Option String
  active : Bool
deriving DecidableEq

/-- One element of `text_lines`. -/
structure PayloadLayer where
  text : JsVal
  color : JsVal
  size : JsNum
  x_pos : JsNum
  y_pos : JsNum
  opacity : JsNum
  border_color_hex : JsVal
deriving DecidableEq

/-- A request issued with `fetch`. -/
inductive Request where
  | postMemes (template_id : ℕ) (text_border : Bool) (text_lines : List PayloadLayer)
  | getMeme (taskId : Option String)
deriving DecidableEq

/-- The state of the page. -/
structure Editor where
  currentTemplate : Option Template
  layers : List Layer
  activeLayerId : Option ℕ
  layerCounter : ℕ
  isDragging : Bool
  dragOffsetX : ℚ
  dragOffsetY : ℚ
  dragTargetId : Option ℕ
  controls : Controls
  mainImgSrc : String
  elevatorMusic : Option Audio
  view : ResultView
  /-- The intervals created so far, in creation order. -/
  timers : List Timer
  /-- The requests issued so far, oldest first. -/
  requests : List Request
  /-- The messages shown with `alert`, oldest first. -/
  alerts : List String
  /-- The number of `setTimeout` callbacks scheduled by `selectTemplate` that
  have not run yet. -/
  pendingTimeouts : ℕ
deriving DecidableEq

/-- Truthiness of an identifier held in a variable that may be `null`. -/
def truthy : Option ℕ → Bool
  | some n => n != 0
  | none => false

/-! ## Layer store -/

/-- The effect of `layers.find(p)` followed by a mutation `f` of the layer
found: the first layer satisfying `p` is replaced by its image. -/
def modifyFirst (p : Layer → Bool) (f : Layer → Layer) : List Layer → List Layer
  | [] => []
  | l :: ls => if p l then f l :: ls else l :: modifyFirst p f ls

/-- `updateControlsUI`. -/
def updateControlsUI (s : Editor) : Editor :=
  { s with controls := { s.controls with layerControlsEnabled := truthy s.activeLayerId } }

/-- `setActiveLayer(id)`. -/
def setActiveLayer (id : ℕ) (s : Editor) : Editor :=
  let s1 : Editor :=
    { s with
      activeLayerId := some id
      layers := s.layers.map fun l => { l with element := { l.element with active := false } } }
  let s2 : Editor :=
    match s1.layers.find? (fun l => l.id == id) with
    | some layer =>
      { s1 with
        layers := modifyFirst (fun l => l.id == id)
          (fun l => { l with element := { l.element with active := true } }) s1.layers
        controls :=
          { s1.controls with
            ctrlText := layer.text
            ctrlSize := layer.size
            ctrlColor := layer.color
            ctrlOpacity := layer.opacity
            ctrlBorderColor := layer.borderColor
            ctrlBorderColorDisabled := !s1.controls.textBorderChecked } }
    | none => s1
  updateControlsUI s2

/-- `addNewLayer(textOverride)`; `id` is the value of
`Date.now() + Math.random()`. -/
def addNewLayer (id : ℕ) (textOverride : Option String) (s : Editor) : Editor :=
  let useOverride : Bool :=
    match textOverride with
    | some t => t != ""
    | none => false
  let counter : ℕ := if useOverride then s.layerCounter else s.layerCounter + 1
  let text : String :=
    match textOverride with
    | some t => if t != "" then t else "YOUR TEXT " ++ toString counter
    | none => "YOUR TEXT " ++ toString counter
  let el : Element :=
    { innerText := .str text
      fontSize := .num 50
      color := .str "#ffffff"
      opacity := .num 100
      webkitTextStroke := .px2 (.str "#000000")
      left := 20
      top := 20
      active := false }
  let layer : Layer :=
    { id := id, text := .str text, size := .num 50, color := .str "#ffffff", opacity := .num 100,
      borderColor := .str "#000000", element := el }
  setActiveLayer id { s with layerCounter := counter, layers := s.layers ++ [layer] }

/-- The body of `if (layer) { ... }` in `updateActiveLayer`: the five `if`
statements in the order of the script; `textBorderChecked` is the state of the
`textBorder` checkbox. -/
def updateLayer (prop : String) (value : JsVal) (textBorderChecked : Bool) (l0 : Layer) : Layer :=
  let l1 : Layer :=
    if prop == "text" then
      { l0 with text := value, element := { l0.element with innerText := value } }
    else l0
  let l2 : Layer :=
    if prop == "size" then
      { l1 with size := value, element := { l1.element with fontSize := value } }
    else l1
  let l3 : Layer :=
    if prop == "color" then
      { l2 with color := value, element := { l2.element with color := value } }
    else l2
  let l4 : Layer :=
    if prop == "opacity" then
      { l3 with opacity := value, element := { l3.element with opacity := value } }
    else l3
  if prop == "border" then
    { l4 with
      borderColor := value
      element :=
        if textBorderChecked then { l4.element with webkitTextStroke := .px2 value }
        else l4.element }
  else l4

/-- `updateActiveLayer(prop, value)`. -/
def updateActiveLayer (prop : String) (value : JsVal) (s : Editor) : Editor :=
  if !truthy s.activeLayerId then s
  else
    { s with
      layers := modifyFirst (fun l => some l.id == s.activeLayerId)
        (updateLayer prop value s.controls.textBorderChecked) s.layers }

/-- `deleteActiveLayer()`. -/
def deleteActiveLayer (s : Editor) : Editor :=
  if !truthy s.activeLayerId then s
  else
    match s.layers.findIdx? (fun l => some l.id == s.activeLayerId) with
    | some idx =>
      { s with
        layers := s.layers.eraseIdx idx
        activeLayerId := none
        controls := { s.controls with ctrlText := .str "" } }
    | none => s

/-- `selectTemplate(tpl, wrapperEl)`: the deferred `addNewLayer("YOUR TEXT")` is
recorded in `pendingTimeouts`. -/
def selectTemplate (tpl : Template) (s : Editor) : Editor :=
  let s1 : Editor :=
    { s with
      currentTemplate := some tpl
      mainImgSrc := tpl.url
      layers := []
      activeLayerId := none
      layerCounter := 1 }
  let s2 := updateControlsUI s1
  { s2 with pendingTimeouts := s2.pendingTimeouts + 1 }

/-- One scheduled `setTimeout` callback of `selectTemplate` runs. Nothing
happens when none is pending. -/
def runTimeout (id : ℕ) (s : Editor) : Editor :=
  match s.pendingTimeouts with
  | 0 => s
  | n + 1 => addNewLayer id (some "YOUR TEXT") { s with pendingTimeouts := n }

/-- Every scheduled `setTimeout` callback runs, in scheduling order; the
`k`-th one from now draws the identifier `fresh k`. -/
def runAllTimeouts (fresh : ℕ → ℕ) (s : Editor) : Editor :=
  (List.range s.pendingTimeouts).foldl (fun st k => runTimeout (fresh k) st) s

/-! ## Drag controller -/

/-- The `mousedown` handler installed by `addNewLayer` on the handle of the
layer `id`; `rectLeft`, `rectTop` are read from `el.getBoundingClientRect()`. -/
def onMouseDown (id : ℕ) (clientX clientY rectLeft rectTop : ℚ) (s : Editor) : Editor :=
  let s1 := setActiveLayer id s
  { s1 with
    isDragging := true
    dragTargetId := some id
    dragOffsetX := clientX - rectLeft
    dragOffsetY := clientY - rectTop }

/-- The document-level `mouseup` handler. -/
def onMouseUp (s : Editor) : Editor :=
  { s with isDragging := false }

/-- What a `mousemove` event carries and what the browser reports when the
handler reads the geometry of the container `meme-canvas` and of the handle of
the dragged layer. -/
structure MoveEvent where
  clientX : ℚ
  clientY : ℚ
  containerLeft : ℚ
  containerTop : ℚ
  containerWidth : ℕ
  containerHeight : ℕ
  handleWidth : ℕ
  handleHeight : ℕ
deriving DecidableEq

/-- The clamping of one coordinate in `handleDragMove`: the two `if`
statements, in the order of the script. -/
def clampAxis (v max : ℚ) : ℚ :=
  let v1 := if v < 0 then 0 else v
  if v1 > max then max else v1

/-- `handleDragMove(e)`. -/
def handleDragMove (e : MoveEvent) (s : Editor) : Editor :=
  if !s.isDragging || !truthy s.dragTargetId then s
  else
    match s.layers.find? (fun l => some l.id == s.dragTargetId) with
    | none => s
    | some _ =>
      let newX := e.clientX - e.containerLeft - s.dragOffsetX
      let newY := e.clientY - e.containerTop - s.dragOffsetY
      let maxX : ℚ := (e.containerWidth : ℚ) - (e.handleWidth : ℚ)
      let maxY : ℚ := (e.containerHeight : ℚ) - (e.handleHeight : ℚ)
      { s with
        layers := modifyFirst (fun l => some l.id == s.dragTargetId)
          (fun l => { l with
            element := { l.element with left := clampAxis newX maxX, top := clampAxis newY maxY } })
          s.layers }

/-! ## Submission and polling -/

/-- What the browser reports about the displayed image `meme-image`. In the DOM
interface `naturalWidth` is an `unsigned long` and `offsetWidth` a `long`. -/
structure DisplayedImg where
  complete : Bool
  naturalWidth : ℕ
  offsetWidth : ℕ
  rectLeft : ℚ
  rectTop : ℚ
  naturalWidth_lt : naturalWidth < 2 ^ 32 := by decide
  offsetWidth_lt : offsetWidth < 2 ^ 31 := by decide

/-- The scale factor computed by `generateMeme`. -/
def scaleFactor (img : DisplayedImg) : JsNum :=
  jsDivNat img.naturalWidth img.offsetWidth

/-- The body of the `layers.map` callback of `generateMeme`; `elLeft`, `elTop`
are read from `l.element.getBoundingClientRect()`. -/
def payloadLayer (b : JsBuiltins) (img : DisplayedImg) (elLeft elTop : ℚ) (l : Layer) :
    PayloadLayer :=
  let x := binary64 (elLeft - img.rectLeft)
  let y := binary64 (elTop - img.rectTop)
  { text := l.text
    color := l.color
    size := mathRound (((toNumber b l.size).mul (scaleFactor img)).mul (binary64 (8 / 10)))
    x_pos := mathRound (x.mul (scaleFactor img))
    y_pos := mathRound (y.mul (scaleFactor img))
    opacity := b.parseInt l.opacity
    border_color_hex := l.borderColor }

/-- The list `payloadLayers` of `generateMeme`; `elRect i` is the rectangle
of the handle of the `i`-th layer, counted from `start`. -/
def payloadLayersFrom (b : JsBuiltins) (img : DisplayedImg) (elRect : ℕ → ℚ × ℚ) :
    ℕ → List Layer → List PayloadLayer
  | _, [] => []
  | start, l :: ls =>
    payloadLayer b img (elRect start).1 (elRect start).2 l ::
      payloadLayersFrom b img elRect (start + 1) ls

/-- The list `payloadLayers` of `generateMeme`. -/
def payloadLayers (b : JsBuiltins) (img : DisplayedImg) (elRect : ℕ → ℚ × ℚ)
    (layers : List Layer) : List PayloadLayer :=
  payloadLayersFrom b img elRect 0 layers

/-- How the `POST /memes` exchange ends. -/
inductive FetchOutcome where
  /-- The call of `fetch` rejects. -/
  | fetchThrows (message : String)
  /-- A response with this status arrives and reading it throws: `res.json()`
  rejects, or the parsed value is `null` and `data.task_id` throws. -/
  | bodyThrows (status : ℕ) (message : String)
  /-- A response with this status arrives and its body parses; `task_id` is
  `none` when the parsed value has no such property. -/
  | data (status : ℕ) (task_id : Option String)
deriving DecidableEq

/-- `pollStatus(taskId)`: a new interval is created. -/
def pollStatus (taskId : Option String) (s : Editor) : Editor :=
  { s with timers := s.timers ++ [{ taskId := taskId, active := true }] }

/-- `elevatorMusic.pause()` when the element exists. -/
def pauseMusic (rewind : Bool) (m : Option Audio) : Option Audio :=
  m.map fun a => { playing := false, currentTime := if rewind then 0 else a.currentTime }

/-- `generateMeme()`, with the end of the `POST /memes` exchange given. -/
def generateMeme (b : JsBuiltins) (img : DisplayedImg) (elRect : ℕ → ℚ × ℚ)
    (outcome : FetchOutcome) (s : Editor) : Editor :=
  match s.currentTemplate with
  | none => s
  | some tpl =>
    if !img.complete || img.naturalWidth == 0 then
      { s with alerts := s.alerts ++ ["Image not loaded yet."] }
    else
      let music : Option Audio := s.elevatorMusic.map fun _ => { playing := true, currentTime := 0 }
      let lines := payloadLayers b img elRect s.layers
      let s1 : Editor :=
        { s with
          elevatorMusic := music
          view :=
            { s.view with
              overlayDisplay := "flex"
              loaderDisplay := "block"
              imgDisplay := "none"
              statusText := "Processing..." }
          requests :=
            s.requests ++ [Request.postMemes tpl.id s.controls.textBorderChecked lines] }
      let errored : String → Editor := fun message =>
        { s1 with
          view := { s1.view with statusText := "Error: " ++ message, loaderDisplay := "none" }
          elevatorMusic := pauseMusic false s1.elevatorMusic }
      match outcome with
      | .fetchThrows message => errored message
      | .bodyThrows _ message => errored message
      | .data _ task_id => pollStatus task_id s1

/-- How one `GET /memes/{task_id}` exchange of the polling loop ends. -/
inductive PollOutcome where
  /-- The call of `fetch`, `res.json()` or the reading of `data.status`
  throws. -/
  | throws
  /-- The body parses; `status` and `url` are `none` when absent. -/
  | data (status : Option String) (url : Option String)
deriving DecidableEq

/-- `clearInterval` for the interval at position `k` of `timers`. -/
def clearIntervalAt : ℕ → List Timer → List Timer
  | _, [] => []
  | 0, t :: ts => { t with active := false } :: ts
  | k + 1, t :: ts => t :: clearIntervalAt k ts

/-- The interval at position `k` of `timers` comes due: its callback starts
and issues the status request. A cleared interval does not fire. -/
def intervalFires (k : ℕ) (s : Editor) : Editor :=
  match s.timers.get? k with
  | some t => if t.active then { s with requests := s.requests ++ [Request.getMeme t.taskId] } else s
  | none => s

/-- The rest of the interval callback of `pollStatus`, from the arrival of
the answer on; `k` is the position of the interval in `timers`. -/
def pollResponse (k : ℕ) (r : PollOutcome) (s : Editor) : Editor :=
  match r with
  | .throws => s
  | .data status url =>
    if status == some "Done" then
      { s with
        timers := clearIntervalAt k s.timers
        view :=
          { s.view with
            loaderDisplay := "none"
            statusText := "Done!"
            imgSrc := url
            imgDisplay := "block" }
        elevatorMusic := pauseMusic true s.elevatorMusic }
    else if status == some "Failed" then
      { s with
        timers := clearIntervalAt k s.timers
        view := { s.view with statusText := "Generation Failed", loaderDisplay := "none" }
        elevatorMusic := pauseMusic false s.elevatorMusic }
    else s

/-- The answers of a list of poll exchanges are handled in order. -/
def pollResponses (k : ℕ) (rs : List PollOutcome) (s : Editor) : Editor :=
  rs.foldl (fun st r => pollResponse k r st) s

/-- The states of the job poller named by the specification. -/
inductive PollerPhase where
  | polling
  | completed (url : Option String)
  | failed
deriving DecidableEq

/-- The poller state that the page shows for the interval at position `k`:
polling while the interval is live, otherwise what the result view reports. -/
def pollerPhase (k : ℕ) (s : Editor) : Option PollerPhase :=
  match s.timers.get? k with
  | none => none
  | some t =>
    if t.active then some .polling
    else if s.view.statusText == "Done!" then some (.completed s.view.imgSrc)
    else if s.view.statusText == "Generation Failed" then some .failed
    else none

/-- The number of live intervals. -/
def activeTimers (s : Editor) : ℕ :=
  (s.timers.filter fun t => t.active).length

/-- The page as loaded: the initial values of the module-level variables and
an idle page. -/
def initial (music : Option Audio) (textBorderChecked : Bool) : Editor :=
  { currentTemplate := none
    layers := []
    activeLayerId := none
    layerCounter := 1
    isDragging := false
    dragOffsetX := 0
    dragOffsetY := 0
    dragTargetId := none
    controls :=
      { ctrlText := .str "", ctrlSize := .num 50, ctrlColor := .str "#ffffff",
        ctrlOpacity := .num 100, ctrlBorderColor := .str "#000000",
        ctrlBorderColorDisabled := false, textBorderChecked := textBorderChecked,
        layerControlsEnabled := false }
    mainImgSrc := ""
    elevatorMusic := music
    view :=
      { overlayDisplay := "none", loaderDisplay := "none", imgDisplay := "none", imgSrc := none,
        statusText := "" }
    timers := []
    requests := []
    alerts := []
    pendingTimeouts := 0 }

/-! ## Sequences of store operations -/

/-- A call of `addNewLayer` or of `deleteActiveLayer`. -/
inductive StoreOp where
  | add (id : ℕ) (textOverride : Option String)
  | delete
deriving DecidableEq

/-- The call is made. -/
def applyOp : StoreOp → Editor → Editor
  | .add id textOverride, s => addNewLayer id textOverride s
  | .delete, s => deleteActiveLayer s

/-- The calls are made in order. -/
def runOps (ops : List StoreOp) (s : Editor) : Editor :=
  ops.foldl (fun st op => applyOp op st) s

/-- The identifiers of the layers of the store, in order. -/
def layerIds (s : Editor) : List ℕ :=
  s.layers.map Layer.id

/-- The active-layer identifier is `null` or the identifier of a layer of the
collection. -/
def ActiveValid (s : Editor) : Prop :=
  s.activeLayerId = none ∨ ∃ a, s.activeLayerId = some a ∧ a ∈ layerIds s

/-- The data of a layer that `setActiveLayer` never writes: everything but the
`active` mark of its handle. -/
def Layer.unmarked (l : Layer) : Layer :=
  { l with element := { l.element with active := false } }

/-- A layer as `addNewLayer` creates it, with identifier 5 and marked active. -/
def sampleLayer : Layer :=
  { id := 5, text := .str "YOUR TEXT 2", size := .num 50, color := .str "#ffffff",
    opacity := .num 100, borderColor := .str "#000000",
    element :=
      { innerText := .str "YOUR TEXT 2", fontSize := .num 50, color := .str "#ffffff",
        opacity := .num 100, webkitTextStroke := .px2 (.str "#000000"), left := 20, top := 20,
        active := true } }

/-- A page whose store holds `sampleLayer` alone, active. -/
def sampleEditor : Editor :=
  { initial none true with
    layers := [sampleLayer]
    activeLayerId := some 5
    layerCounter := 2
    controls :=
      { ctrlText := .str "YOUR TEXT 2", ctrlSize := .num 50, ctrlColor := .str "#ffffff",
        ctrlOpacity := .num 100, ctrlBorderColor := .str "#000000",
        ctrlBorderColorDisabled := false, textBorderChecked := true,
        layerControlsEnabled := true } }

/-- The `mousemove` events of a drag are handled in order. -/
def runMoves (ms : List MoveEvent) (s : Editor) : Editor :=
  ms.foldl (fun st m => handleDragMove m st) s

/-- The position `(left, top)` of the handle of the layer being dragged. -/
def draggedPosition (s : Editor) : Option (ℚ × ℚ) :=
  (s.layers.find? (fun l => some l.id == s.dragTargetId)).map
    fun l => (l.element.left, l.element.top)

/-- A `mousemove` over a container 100 wide holding a handle 150 wide. -/
def wideHandleMove : MoveEvent :=
  { clientX := 60, clientY := 60, containerLeft := 0, containerTop := 0,
    containerWidth := 100, containerHeight := 100, handleWidth := 150, handleHeight := 40 }

/-- A `mousemove` far to the right of a container 400 by 300 holding a handle
120 by 60. -/
def farRightMove : MoveEvent :=
  { clientX := 900, clientY := 5, containerLeft := 10, containerTop := 10,
    containerWidth := 400, containerHeight := 300, handleWidth := 120, handleHeight := 60 }

/-- The integer `n` is the nearest integer to `v`, a half going up. -/
def IsRoundHalfUp (n : ℤ) (v : ℚ) : Prop :=
  (n : ℚ) - 1 / 2 ≤ v ∧ v < (n : ℚ) + 1 / 2

/-- Builtins that convert no string: every string is NaN. -/
def nanBuiltins : JsBuiltins :=
  { strToNum := fun _ => .nan
    parseInt := fun v =>
      match v with
      | .num q => .fin ((if 0 ≤ q then ⌊q⌋ else ⌈q⌉ : ℤ) : ℚ)
      | .str _ => .nan }

/-- A template. -/
def templateT1 : Template :=
  { id := 1, name := "T1", url := "/static/t1.png" }

/-- The page of `sampleEditor` with the template `templateT1` selected. -/
def sampleSession : Editor :=
  { sampleEditor with currentTemplate := some templateT1, mainImgSrc := "/static/t1.png" }

/-- A loaded image of natural width 1000 displayed 500 wide at the origin. -/
def halfScaleImg : DisplayedImg :=
  { complete := true, naturalWidth := 1000, offsetWidth := 500, rectLeft := 0, rectTop := 0 }

/-- A loaded image of natural width 1000 displayed 304 wide at the origin. -/
def narrowImg : DisplayedImg :=
  { complete := true, naturalWidth := 1000, offsetWidth := 304, rectLeft := 0, rectTop := 0 }

/-- An image that has not finished loading. -/
def unloadedImg : DisplayedImg :=
  { complete := false, naturalWidth := 0, offsetWidth := 500, rectLeft := 0, rectTop := 0 }

/-- The answer carries the status `Done` or `Failed`. -/
def PollOutcome.terminal : PollOutcome → Bool
  | .throws => false
  | .data status _ => status == some "Done" || status == some "Failed"

/-- The answer `{ status: "Pending" }`. -/
def pendingAnswer : PollOutcome :=
  .data (some "Pending") none

/-- A second template. -/
def templateT2 : Template :=
  { id := 2, name := "T2", url := "/static/t2.png" }

/-- The mutation `layer.element.classList.add('active')`. -/
def Layer.marked (l : Layer) : Layer :=
  { l with element := { l.element with active := true } }

/-- The facts about a drag in progress that `handleDragMove` keeps. -/
structure Dragging (id : ℕ) (ox oy : ℚ) (s : Editor) : Prop where
  isDragging : s.isDragging = true
  target : s.dragTargetId = some id
  present : id ∈ layerIds s
  offsetX : s.dragOffsetX = ox
  offsetY : s.dragOffsetY = oy

/-- The coordinate `x` is what the two clamping statements of `handleDragMove`
leave of the candidate `cand` for the upper limit `max`: the limit itself when
it is negative; otherwise 0 below the range, the limit above it and the
candidate inside it. -/
def ClampedTo (x cand max : ℚ) : Prop :=
  (max < 0 → x = max) ∧
  (0 ≤ max → cand < 0 → x = 0) ∧
  (0 ≤ max → max < cand → x = max) ∧
  (0 ≤ cand → cand ≤ max → x = cand)

/-- Two calls of `generateMeme` that both get a parsed answer, with the poll
answers `rs` handled for the loop of the first call in between. -/
def submitTwice (b : JsBuiltins) (img1 img2 : DisplayedImg) (elRect1 elRect2 : ℕ → ℚ × ℚ)
    (status1 status2 : ℕ) (task1 task2 : Option String) (rs : List PollOutcome)
    (s : Editor) : Editor :=
  generateMeme b img2 elRect2 (.data status2 task2)
    (pollResponses s.timers.length rs (generateMeme b img1 elRect1 (.data status1 task1) s))

/-! ## Theorems -/

theorem modifyFirst_map_id (p : Layer → Bool) (f : Layer → Layer)
    (hf : ∀ l, (f l).id = l.id) (ls : List Layer) :
    (modifyFirst p f ls).map Layer.id = ls.map Layer.id := by
  induction ls with
  | nil => rfl
  | cons l ls ih =>
    unfold modifyFirst
    split
    · simp [hf]
    · simp [ih]

theorem modifyFirst_length (p : Layer → Bool) (f : Layer → Layer) (ls : List Layer) :
    (modifyFirst p f ls).length = ls.length := by
  induction ls with
  | nil => rfl
  | cons l ls ih =>
    unfold modifyFirst
    split
    · simp
    · simp [ih]

theorem setActiveLayer_activeLayerId (id : ℕ) (s : Editor) :
    (setActiveLayer id s).activeLayerId = some id := by
  unfold setActiveLayer updateControlsUI
  dsimp only
  split <;> rfl

theorem setActiveLayer_layerIds (id : ℕ) (s : Editor) :
    layerIds (setActiveLayer id s) = layerIds s := by
  unfold setActiveLayer updateControlsUI layerIds
  dsimp only
  split
  · dsimp only
    rw [modifyFirst_map_id]
    · simp [List.map_map, Function.comp_def]
    · intro l
      rfl
  · simp [List.map_map, Function.comp_def]

theorem addNewLayer_activeLayerId (id : ℕ) (t : Option String) (s : Editor) :
    (addNewLayer id t s).activeLayerId = some id := by
  unfold addNewLayer
  exact setActiveLayer_activeLayerId _ _

theorem addNewLayer_layerIds (id : ℕ) (t : Option String) (s : Editor) :
    layerIds (addNewLayer id t s) = layerIds s ++ [id] := by
  unfold addNewLayer
  rw [setActiveLayer_layerIds]
  simp [layerIds]

theorem deleteActiveLayer_cases (s : Editor) :
    deleteActiveLayer s = s ∨ (deleteActiveLayer s).activeLayerId = none := by
  unfold deleteActiveLayer
  split
  · exact Or.inl rfl
  · split
    · exact Or.inr rfl
    · exact Or.inl rfl

theorem applyOp_activeValid (op : StoreOp) (s : Editor) (h : ActiveValid s) :
    ActiveValid (applyOp op s) := by
  cases op with
  | add id t =>
    refine Or.inr ⟨id, addNewLayer_activeLayerId id t s, ?_⟩
    show id ∈ layerIds (addNewLayer id t s)
    rw [addNewLayer_layerIds]
    simp
  | delete =>
    show ActiveValid (deleteActiveLayer s)
    rcases deleteActiveLayer_cases s with h1 | h1
    · rw [h1]; exact h
    · exact Or.inl h1

theorem runOps_activeValid (ops : List StoreOp) (s : Editor) (h : ActiveValid s) :
    ActiveValid (runOps ops s) := by
  induction ops generalizing s with
  | nil => exact h
  | cons op ops ih => exact ih _ (applyOp_activeValid op s h)

/-- C3. From a store with no active layer, the empty store in particular, after
every finite sequence of `addNewLayer` and `deleteActiveLayer` calls the
active-layer identifier is `null` or the identifier of a layer of the
collection. -/
theorem active_layer_never_dangling (s : Editor) (ops : List StoreOp)
    (hnone : s.activeLayerId = none) :
    ActiveValid (runOps ops s) :=
  runOps_activeValid ops s (Or.inl hnone)

theorem active_layer_never_dangling_witness :
    ActiveValid (runOps [.add 5 none, .add 6 (some "HI"), .delete, .delete, .add 7 none]
      (initial none true)) :=
  active_layer_never_dangling (initial none true) _ rfl

/-! ### `setActiveLayer` -/

theorem modifyFirst_map_of_comp {β : Type} (g : Layer → β) (p : Layer → Bool) (f : Layer → Layer)
    (hf : ∀ l, g (f l) = g l) (ls : List Layer) :
    (modifyFirst p f ls).map g = ls.map g := by
  induction ls with
  | nil => rfl
  | cons l ls ih =>
    unfold modifyFirst
    split
    · simp [hf]
    · simp [ih]

theorem find_unmarked_isSome (id : ℕ) (ls : List Layer) :
    ((ls.map Layer.unmarked).find? (fun l => l.id == id)).isSome = decide (id ∈ ls.map Layer.id) := by
  rw [Bool.eq_iff_iff, List.find?_isSome]
  simp only [List.mem_map, decide_eq_true_eq, beq_iff_eq]
  constructor
  · rintro ⟨x, ⟨a, ha, rfl⟩, hx⟩
    exact ⟨a, ha, hx⟩
  · rintro ⟨a, ha, hx⟩
    exact ⟨a.unmarked, ⟨a, ha, rfl⟩, hx⟩

theorem marked_count (id : ℕ) (ls : List Layer) :
    ((modifyFirst (fun l => l.id == id) Layer.marked (ls.map Layer.unmarked)).filter
        fun l => l.element.active).length = (if id ∈ ls.map Layer.id then 1 else 0) := by
  induction ls with
  | nil => simp [modifyFirst]
  | cons l ls ih =>
    by_cases h : l.id = id
    · have h0 : ((ls.map Layer.unmarked).filter fun l => l.element.active) = [] := by
        simp [List.filter_eq_nil_iff, Layer.unmarked]
      simp [modifyFirst, Layer.unmarked, Layer.marked, h] at h0 ⊢
    · have h2 : ¬ id = l.id := fun e => h e.symm
      simp only [List.map_cons, List.mem_cons, h2, false_or] at ih ⊢
      simp only [modifyFirst, Layer.unmarked, beq_iff_eq, h, if_false]
      simp [List.filter_cons, Layer.unmarked] at ih ⊢
      exact ih

theorem marked_only_id (id : ℕ) (ls : List Layer) :
    ∀ l ∈ modifyFirst (fun l => l.id == id) Layer.marked (ls.map Layer.unmarked),
      l.element.active = true → l.id = id := by
  induction ls with
  | nil => simp [modifyFirst]
  | cons a ls ih =>
    intro l hl hact
    by_cases h : a.id = id
    · simp [modifyFirst, Layer.unmarked, h] at hl
      rcases hl with hl | ⟨b, _, hb⟩
      · rw [hl]; simp [Layer.marked, h]
      · rw [← hb] at hact
        simp at hact
    · simp only [List.map_cons, modifyFirst, Layer.unmarked, beq_iff_eq, h, if_false,
        List.mem_cons] at hl
      rcases hl with hl | hl
      · rw [hl] at hact
        simp at hact
      · exact ih l hl hact

theorem setActiveLayer_layers (id : ℕ) (s : Editor) :
    (setActiveLayer id s).layers =
      if id ∈ layerIds s then
        modifyFirst (fun l => l.id == id) Layer.marked (s.layers.map Layer.unmarked)
      else s.layers.map Layer.unmarked := by
  have hf := find_unmarked_isSome id s.layers
  unfold setActiveLayer updateControlsUI layerIds
  dsimp only
  split
  · next layer heq =>
    have heq2 : (s.layers.map Layer.unmarked).find? (fun l => l.id == id) = some layer := heq
    rw [heq2] at hf
    simp only [Option.isSome_some, true_eq_decide_iff] at hf
    rw [if_pos hf]
    rfl
  · next heq =>
    have heq2 : (s.layers.map Layer.unmarked).find? (fun l => l.id == id) = none := heq
    rw [heq2] at hf
    simp only [Option.isSome_none, false_eq_decide_iff] at hf
    rw [if_neg hf]
    rfl

/-- C8, as the script behaves. For every store state and every identifier,
`setActiveLayer(id)` sets the active-layer identifier to `id`, also when no
layer has it; it leaves the data of every layer (all but the `active` mark of
the handle) and the layer order unchanged; afterwards the number of handles
marked active is one when `id` is in the collection and zero when it is not,
and a layer whose handle is marked active has the identifier `id`. -/
theorem setActiveLayer_marks_at_most_one (id : ℕ) (s : Editor) :
    (setActiveLayer id s).activeLayerId = some id ∧
    (setActiveLayer id s).layers.map Layer.unmarked = s.layers.map Layer.unmarked ∧
    ((setActiveLayer id s).layers.filter fun l => l.element.active).length =
      (if id ∈ layerIds s then 1 else 0) ∧
    (∀ l ∈ (setActiveLayer id s).layers, l.element.active = true → l.id = id) := by
  refine ⟨setActiveLayer_activeLayerId id s, ?_, ?_, ?_⟩
  · rw [setActiveLayer_layers]
    split
    · rw [modifyFirst_map_of_comp Layer.unmarked (fun l => l.id == id) Layer.marked (fun _ => rfl)]
      simp [List.map_map, Function.comp_def, Layer.unmarked]
    · simp [List.map_map, Function.comp_def, Layer.unmarked]
  · rw [setActiveLayer_layers]
    split
    · next h =>
      rw [marked_count]
      exact if_pos h
    · simp [List.filter_eq_nil_iff, Layer.unmarked]
  · rw [setActiveLayer_layers]
    split
    · exact marked_only_id id s.layers
    · intro l hl hact
      simp [Layer.unmarked] at hl
      rcases hl with ⟨b, _, hb⟩
      rw [← hb] at hact
      simp at hact

/-- C8 fails as stated: with the single layer 5 in the store and active,
`setActiveLayer(7)` for the absent identifier 7 makes 7 the active-layer
identifier and takes the active mark off the handle of layer 5. -/
theorem setActiveLayer_absent_id_not_noop :
    7 ∉ layerIds (addNewLayer 5 none (initial none true)) ∧
    (addNewLayer 5 none (initial none true)).activeLayerId = some 5 ∧
    (setActiveLayer 7 (addNewLayer 5 none (initial none true))).activeLayerId = some 7 ∧
    (addNewLayer 5 none (initial none true)).layers.map (fun l => l.element.active) = [true] ∧
    (setActiveLayer 7 (addNewLayer 5 none (initial none true))).layers.map
      (fun l => l.element.active) = [false] := by
  refine ⟨?_, addNewLayer_activeLayerId _ _ _, setActiveLayer_activeLayerId _ _, ?_, ?_⟩
  · rw [addNewLayer_layerIds]
    simp [layerIds, initial]
  · simp [addNewLayer, setActiveLayer_layers, layerIds, initial, modifyFirst, Layer.marked,
      Layer.unmarked]
  · simp [addNewLayer, setActiveLayer_layers, layerIds, initial, modifyFirst, Layer.marked,
      Layer.unmarked]

/-! ### `updateActiveLayer` -/

theorem modifyFirst_split (p : Layer → Bool) (f : Layer → Layer) (pre post : List Layer)
    (l : Layer) (hpre : ∀ x ∈ pre, p x = false) (hl : p l = true) :
    modifyFirst p f (pre ++ l :: post) = pre ++ f l :: post := by
  induction pre with
  | nil => simp [modifyFirst, hl]
  | cons a pre ih =>
    have ha : p a = false := hpre a (by simp)
    have ih2 := ih (fun x hx => hpre x (by simp [hx]))
    simp [modifyFirst, ha, ih2]

theorem modifyFirst_none (p : Layer → Bool) (f : Layer → Layer) (ls : List Layer)
    (h : ∀ x ∈ ls, p x = false) : modifyFirst p f ls = ls := by
  induction ls with
  | nil => rfl
  | cons a ls ih =>
    have ha : p a = false := h a (by simp)
    simp [modifyFirst, ha, ih (fun x hx => h x (by simp [hx]))]

theorem updateLayer_fields (prop : String) (v : JsVal) (tb : Bool) (l : Layer) :
    (updateLayer prop v tb l).id = l.id ∧
    (updateLayer prop v tb l).text = (if prop = "text" then v else l.text) ∧
    (updateLayer prop v tb l).size = (if prop = "size" then v else l.size) ∧
    (updateLayer prop v tb l).color = (if prop = "color" then v else l.color) ∧
    (updateLayer prop v tb l).opacity = (if prop = "opacity" then v else l.opacity) ∧
    (updateLayer prop v tb l).borderColor = (if prop = "border" then v else l.borderColor) ∧
    (updateLayer prop v tb l).element.left = l.element.left ∧
    (updateLayer prop v tb l).element.top = l.element.top ∧
    (updateLayer prop v tb l).element.active = l.element.active := by
  unfold updateLayer
  simp only [beq_iff_eq]
  by_cases h1 : prop = "text"
  · subst h1
    cases tb <;> simp
  by_cases h2 : prop = "size"
  · subst h2
    cases tb <;> simp
  by_cases h3 : prop = "color"
  · subst h3
    cases tb <;> simp
  by_cases h4 : prop = "opacity"
  · subst h4
    cases tb <;> simp
  by_cases h5 : prop = "border"
  · subst h5
    cases tb <;> simp
  simp [h1, h2, h3, h4, h5]

theorem updateLayer_unknown (prop : String) (v : JsVal) (tb : Bool) (l : Layer)
    (h1 : prop ≠ "text") (h2 : prop ≠ "size") (h3 : prop ≠ "color") (h4 : prop ≠ "opacity")
    (h5 : prop ≠ "border") : updateLayer prop v tb l = l := by
  simp [updateLayer, h1, h2, h3, h4, h5]

theorem modifyFirst_id (p : Layer → Bool) (f : Layer → Layer) (hf : ∀ l, f l = l)
    (ls : List Layer) : modifyFirst p f ls = ls := by
  induction ls with
  | nil => rfl
  | cons a ls ih => simp [modifyFirst, hf, ih]

theorem updateActiveLayer_unknown (prop : String) (v : JsVal) (s : Editor)
    (h1 : prop ≠ "text") (h2 : prop ≠ "size") (h3 : prop ≠ "color") (h4 : prop ≠ "opacity")
    (h5 : prop ≠ "border") : updateActiveLayer prop v s = s := by
  unfold updateActiveLayer
  split
  · rfl
  · rw [modifyFirst_id _ _ (fun l => updateLayer_unknown prop v _ l h1 h2 h3 h4 h5)]

/-- C9, as the script behaves. `updateActiveLayer(prop, v)` changes nothing when
no layer is active, when the active identifier is not in the collection, and
when `prop` is none of `'text'`, `'size'`, `'color'`, `'opacity'`, `'border'`.
When the active identifier is non-zero and `l` is the first layer carrying it,
the call changes the state only by replacing `l` in place: for `'text'`,
`'size'`, `'color'` and `'opacity'` the property of that name and its mirror on
the handle (`innerText`, `fontSize`, `color`, `opacity`) hold `v`; for
`'border'` the property `borderColor` holds `v` and the stroke of the handle
becomes `2px v` when the `textBorder` checkbox is checked; everything else of
the layer, every other layer, the layer order and the active identifier are as
before. -/
theorem updateActiveLayer_sets_one_property (prop : String) (v : JsVal) (s : Editor) :
    (s.activeLayerId = none → updateActiveLayer prop v s = s) ∧
    (∀ a, s.activeLayerId = some a → a ∉ layerIds s → updateActiveLayer prop v s = s) ∧
    (prop ≠ "text" → prop ≠ "size" → prop ≠ "color" → prop ≠ "opacity" → prop ≠ "border" →
      updateActiveLayer prop v s = s) ∧
    (∀ a pre l post, s.activeLayerId = some a → a ≠ 0 → s.layers = pre ++ l :: post →
      l.id = a → (∀ x ∈ pre, x.id ≠ a) →
      ∃ l1, updateActiveLayer prop v s = { s with layers := pre ++ l1 :: post } ∧
        (prop = "text" →
          l1 = { l with text := v, element := { l.element with innerText := v } }) ∧
        (prop = "size" →
          l1 = { l with size := v, element := { l.element with fontSize := v } }) ∧
        (prop = "color" →
          l1 = { l with color := v, element := { l.element with color := v } }) ∧
        (prop = "opacity" →
          l1 = { l with opacity := v, element := { l.element with opacity := v } }) ∧
        (prop = "border" →
          l1 = { l with
            borderColor := v
            element :=
              if s.controls.textBorderChecked then { l.element with webkitTextStroke := .px2 v }
              else l.element }) ∧
        (prop ≠ "text" → prop ≠ "size" → prop ≠ "color" → prop ≠ "opacity" →
          prop ≠ "border" → l1 = l)) := by
  refine ⟨?_, ?_, updateActiveLayer_unknown prop v s, ?_⟩
  · intro h
    simp [updateActiveLayer, h, truthy]
  · intro a ha hmem
    unfold updateActiveLayer
    split
    · rfl
    · rw [modifyFirst_none]
      intro x hx
      have : x.id ≠ a := fun e => hmem (by rw [← e]; exact List.mem_map_of_mem _ hx)
      simp [ha, this]
  · intro a pre l post ha ha0 hls hl hpre
    have htr : truthy s.activeLayerId = true := by simp [ha, truthy, ha0]
    refine ⟨updateLayer prop v s.controls.textBorderChecked l, ?_, ?_, ?_, ?_, ?_, ?_, ?_⟩
    · unfold updateActiveLayer
      rw [htr]
      simp only [Bool.not_true, Bool.false_eq_true, if_false]
      rw [hls, modifyFirst_split _ _ pre post l (by intro x hx; simp [ha, hpre x hx])
        (by simp [ha, hl])]
    · intro h
      subst h
      simp [updateLayer]
    · intro h
      subst h
      simp [updateLayer]
    · intro h
      subst h
      simp [updateLayer]
    · intro h
      subst h
      simp [updateLayer]
    · intro h
      subst h
      simp [updateLayer]
    · intro h1 h2 h3 h4 h5
      exact updateLayer_unknown prop v _ l h1 h2 h3 h4 h5

theorem updateActiveLayer_sets_one_property_witness :
    ∃ l1, updateActiveLayer "size" (.str "72") sampleEditor
        = { sampleEditor with layers := [] ++ l1 :: [] } ∧
      l1 = { sampleLayer with
        size := .str "72", element := { sampleLayer.element with fontSize := .str "72" } } := by
  obtain ⟨l1, h, _, hsize, _⟩ :=
    (updateActiveLayer_sets_one_property "size" (.str "72") sampleEditor).2.2.2 5 [] sampleLayer
      [] rfl (by decide) rfl rfl (by simp)
  exact ⟨l1, h, hsize rfl⟩

/-- C9 fails as stated: with the single layer 5 active, the call
`updateActiveLayer('borderColor', '#ff0000')` leaves the state as it was, so
the border colour of the active layer stays `'#000000'`. -/
theorem updateActiveLayer_borderColor_name_ignored :
    sampleEditor.activeLayerId = some 5 ∧
    sampleEditor.layers.map Layer.id = [5] ∧
    sampleEditor.layers.map Layer.borderColor = [.str "#000000"] ∧
    updateActiveLayer "borderColor" (.str "#ff0000") sampleEditor = sampleEditor := by
  refine ⟨rfl, rfl, rfl, ?_⟩
  have h : updateLayer "borderColor" (.str "#ff0000") true sampleLayer = sampleLayer :=
    updateLayer_unknown _ _ _ _ (by decide) (by decide) (by decide) (by decide) (by decide)
  simp [updateActiveLayer, sampleEditor, initial, truthy, modifyFirst, h]

/-! ### `handleDragMove` -/

theorem clampAxis_bounds (v max : ℚ) (h : 0 ≤ max) :
    0 ≤ clampAxis v max ∧ clampAxis v max ≤ max := by
  unfold clampAxis
  dsimp only
  by_cases h1 : v < 0
  · rw [if_pos h1]
    by_cases h2 : (0 : ℚ) > max
    · exact absurd h (not_le.mpr h2)
    · rw [if_neg h2]
      exact ⟨le_refl _, h⟩
  · rw [if_neg h1]
    by_cases h2 : v > max
    · rw [if_pos h2]
      exact ⟨h, le_refl _⟩
    · rw [if_neg h2]
      exact ⟨not_lt.mp h1, not_lt.mp h2⟩

theorem find_modifyFirst (p : Layer → Bool) (f : Layer → Layer) (hf : ∀ l, p (f l) = p l)
    (ls : List Layer) : (modifyFirst p f ls).find? p = (ls.find? p).map f := by
  induction ls with
  | nil => rfl
  | cons a ls ih =>
    by_cases h : p a = true
    · simp [modifyFirst, List.find?, h, hf]
    · have h2 : p a = false := by simpa using h
      simp [modifyFirst, List.find?, h2, ih]

theorem handleDragMove_layerIds (m : MoveEvent) (s : Editor) :
    layerIds (handleDragMove m s) = layerIds s := by
  unfold handleDragMove
  split
  · rfl
  · split
    · rfl
    · dsimp only [layerIds]
      rw [modifyFirst_map_id]
      intro l
      rfl

theorem handleDragMove_keeps (m : MoveEvent) (s : Editor) :
    (handleDragMove m s).isDragging = s.isDragging ∧
    (handleDragMove m s).dragTargetId = s.dragTargetId ∧
    (handleDragMove m s).dragOffsetX = s.dragOffsetX ∧
    (handleDragMove m s).dragOffsetY = s.dragOffsetY := by
  unfold handleDragMove
  split
  · exact ⟨rfl, rfl, rfl, rfl⟩
  · split <;> exact ⟨rfl, rfl, rfl, rfl⟩

theorem handleDragMove_dragging (id : ℕ) (ox oy : ℚ) (m : MoveEvent) (s : Editor)
    (h : Dragging id ox oy s) : Dragging id ox oy (handleDragMove m s) := by
  obtain ⟨k1, k2, k3, k4⟩ := handleDragMove_keeps m s
  exact ⟨k1.trans h.isDragging, k2.trans h.target,
    (handleDragMove_layerIds m s).symm ▸ h.present, k3.trans h.offsetX, k4.trans h.offsetY⟩

theorem runMoves_dragging (id : ℕ) (ox oy : ℚ) (ms : List MoveEvent) (s : Editor)
    (h : Dragging id ox oy s) : Dragging id ox oy (runMoves ms s) := by
  induction ms generalizing s with
  | nil => exact h
  | cons m ms ih => exact ih _ (handleDragMove_dragging id ox oy m s h)

theorem onMouseDown_dragging (id : ℕ) (cx cy rl rt : ℚ) (s : Editor) (h : id ∈ layerIds s) :
    Dragging id (cx - rl) (cy - rt) (onMouseDown id cx cy rl rt s) := by
  refine ⟨rfl, rfl, ?_, rfl, rfl⟩
  show id ∈ layerIds (setActiveLayer id s)
  rw [setActiveLayer_layerIds]
  exact h

theorem handleDragMove_position (id : ℕ) (ox oy : ℚ) (m : MoveEvent) (s : Editor)
    (h : Dragging id ox oy s) (h0 : id ≠ 0) :
    draggedPosition (handleDragMove m s) =
      some (clampAxis (m.clientX - m.containerLeft - ox)
              ((m.containerWidth : ℚ) - (m.handleWidth : ℚ)),
            clampAxis (m.clientY - m.containerTop - oy)
              ((m.containerHeight : ℚ) - (m.handleHeight : ℚ))) := by
  have hfind : (s.layers.find? (fun l => some l.id == s.dragTargetId)).isSome = true := by
    rw [List.find?_isSome]
    have hp := h.present
    simp only [layerIds, List.mem_map] at hp
    obtain ⟨l, hl, hid⟩ := hp
    exact ⟨l, hl, by simp [h.target, hid]⟩
  obtain ⟨l, hl⟩ := Option.isSome_iff_exists.mp hfind
  unfold draggedPosition handleDragMove
  have hcond : (!s.isDragging || !truthy s.dragTargetId) = false := by
    simp [h.isDragging, h.target, truthy, h0]
  rw [hcond]
  simp only [Bool.false_eq_true, if_false, hl]
  rw [find_modifyFirst, hl]
  · simp [h.offsetX, h.offsetY]
  · intro l
    rfl

theorem clampAxis_clampedTo (v max : ℚ) : ClampedTo (clampAxis v max) v max := by
  unfold ClampedTo clampAxis
  dsimp only
  refine ⟨?_, ?_, ?_, ?_⟩
  · intro hmax
    split_ifs <;> linarith
  · intro hmax hv
    rw [if_pos hv, if_neg (not_lt.mpr hmax)]
  · intro hmax hv
    rw [if_neg (not_lt.mpr (le_trans hmax (le_of_lt hv))), if_pos hv]
  · intro hv hle
    rw [if_neg (not_lt.mpr hv), if_neg (not_lt.mpr hle)]

/-- C2, as the script behaves. After a pointer-down on a layer of the store
with a non-zero identifier and any sequence of pointer-moves, a further
pointer-move writes to the dragged handle, on each axis, the clamped candidate
`pointer - container origin - grab offset`: with the limit `containerSize -
handleSize`, the limit itself when it is negative, otherwise 0 for a candidate
below 0, the limit for a candidate above it and the candidate in between. So
whenever the handle is no larger than the container on an axis at that move,
the written coordinate lies between 0 and `containerSize - handleSize`. -/
theorem drag_position_within_container (s : Editor) (id : ℕ) (cx cy rl rt : ℚ)
    (ms : List MoveEvent) (m : MoveEvent)
    (hid : id ∈ layerIds s) (h0 : id ≠ 0) :
    ∃ x y, draggedPosition (handleDragMove m (runMoves ms (onMouseDown id cx cy rl rt s)))
        = some (x, y) ∧
      ClampedTo x (m.clientX - m.containerLeft - (cx - rl))
        ((m.containerWidth : ℚ) - (m.handleWidth : ℚ)) ∧
      ClampedTo y (m.clientY - m.containerTop - (cy - rt))
        ((m.containerHeight : ℚ) - (m.handleHeight : ℚ)) ∧
      (m.handleWidth ≤ m.containerWidth →
        0 ≤ x ∧ x ≤ (m.containerWidth : ℚ) - (m.handleWidth : ℚ)) ∧
      (m.handleHeight ≤ m.containerHeight →
        0 ≤ y ∧ y ≤ (m.containerHeight : ℚ) - (m.handleHeight : ℚ)) ∧
      (m.containerWidth < m.handleWidth →
        x = (m.containerWidth : ℚ) - (m.handleWidth : ℚ)) ∧
      (m.containerHeight < m.handleHeight →
        y = (m.containerHeight : ℚ) - (m.handleHeight : ℚ)) := by
  have hd := runMoves_dragging id _ _ ms _ (onMouseDown_dragging id cx cy rl rt s hid)
  refine ⟨_, _, handleDragMove_position id _ _ m _ hd h0, clampAxis_clampedTo _ _,
    clampAxis_clampedTo _ _, ?_, ?_, ?_, ?_⟩
  · intro hw
    exact clampAxis_bounds _ _ (sub_nonneg.mpr (Nat.cast_le.mpr hw))
  · intro hh
    exact clampAxis_bounds _ _ (sub_nonneg.mpr (Nat.cast_le.mpr hh))
  · intro hw
    exact (clampAxis_clampedTo _ _).1 (sub_neg.mpr (Nat.cast_lt.mpr hw))
  · intro hh
    exact (clampAxis_clampedTo _ _).1 (sub_neg.mpr (Nat.cast_lt.mpr hh))

theorem drag_position_within_container_witness :
    draggedPosition (handleDragMove farRightMove
        (runMoves [wideHandleMove] (onMouseDown 5 30 30 20 20 sampleEditor))) = some (280, 0) := by
  obtain ⟨x, y, hpos, hx, hy, _⟩ :=
    drag_position_within_container sampleEditor 5 30 30 20 20 [wideHandleMove] farRightMove
      (by simp [layerIds, sampleEditor, sampleLayer]) (by decide)
  have hx280 : x = 280 := by
    have := hx.2.2.1 (by norm_num [farRightMove]) (by norm_num [farRightMove])
    rw [this]
    norm_num [farRightMove]
  have hy0 : y = 0 := hy.2.1 (by norm_num [farRightMove]) (by norm_num [farRightMove])
  rw [hpos, hx280, hy0]

/-- C2 fails as stated: in a container 100 wide, a pointer-down on layer 5 and
one pointer-move while its handle is 150 wide write `left = -50`, which is
below 0. -/
theorem drag_wide_handle_leaves_container :
    draggedPosition (handleDragMove wideHandleMove (onMouseDown 5 30 30 20 20 sampleEditor))
      = some (-50, 50) ∧ ¬ ((0 : ℚ) ≤ -50) := by
  refine ⟨?_, by norm_num⟩
  rw [handleDragMove_position 5 (30 - 20) (30 - 20) wideHandleMove _
    (onMouseDown_dragging 5 30 30 20 20 sampleEditor (by simp [layerIds, sampleEditor, sampleLayer]))
    (by decide)]
  norm_num [clampAxis, wideHandleMove]

/-! ### The payload list -/

theorem payloadLayersFrom_length (b : JsBuiltins) (img : DisplayedImg) (elRect : ℕ → ℚ × ℚ)
    (k : ℕ) (ls : List Layer) : (payloadLayersFrom b img elRect k ls).length = ls.length := by
  induction ls generalizing k with
  | nil => rfl
  | cons l ls ih => simp [payloadLayersFrom, ih]

theorem payloadLayersFrom_getElem? (b : JsBuiltins) (img : DisplayedImg) (elRect : ℕ → ℚ × ℚ)
    (k : ℕ) (ls : List Layer) (i : ℕ) :
    (payloadLayersFrom b img elRect k ls)[i]? =
      (ls[i]?).map (payloadLayer b img (elRect (k + i)).1 (elRect (k + i)).2) := by
  induction ls generalizing k i with
  | nil => simp [payloadLayersFrom]
  | cons l ls ih =>
    cases i with
    | zero => simp [payloadLayersFrom]
    | succ i =>
      simp only [payloadLayersFrom, List.getElem?_cons_succ, ih]
      have : k + 1 + i = k + (i + 1) := by omega
      rw [this]

theorem isRoundHalfUp_floor (v : ℚ) : IsRoundHalfUp ⌊v + 1 / 2⌋ v := by
  constructor
  · have := Int.floor_le (v + 1 / 2)
    linarith
  · have := Int.lt_floor_add_one (v + 1 / 2)
    linarith

theorem isRoundHalfUp_unique (n m : ℤ) (v : ℚ) (hn : IsRoundHalfUp n v)
    (hm : IsRoundHalfUp m v) : n = m := by
  obtain ⟨h1, h2⟩ := hn
  obtain ⟨h3, h4⟩ := hm
  have a : (n : ℚ) < (m : ℚ) + 1 := by linarith
  have c : (m : ℚ) < (n : ℚ) + 1 := by linarith
  have a2 : n < m + 1 := by exact_mod_cast a
  have c2 : m < n + 1 := by exact_mod_cast c
  omega

theorem generateMeme_requests (b : JsBuiltins) (img : DisplayedImg) (elRect : ℕ → ℚ × ℚ)
    (outcome : FetchOutcome) (s : Editor) (tpl : Template)
    (htpl : s.currentTemplate = some tpl) (hc : img.complete = true)
    (hnw : img.naturalWidth ≠ 0) :
    (generateMeme b img elRect outcome s).requests =
      s.requests ++ [Request.postMemes tpl.id s.controls.textBorderChecked
        (payloadLayers b img elRect s.layers)] := by
  unfold generateMeme
  rw [htpl]
  have hcond : (!img.complete || img.naturalWidth == 0) = false := by simp [hc, hnw]
  simp only [hcond, Bool.false_eq_true, if_false]
  cases outcome <;> rfl

/-! ### binary64 rounding -/

theorem log2_eq (q : ℚ) (e : ℤ) (hq : 0 < q) (h1 : (2 : ℚ) ^ e ≤ q)
    (h2 : q < (2 : ℚ) ^ (e + 1)) : Int.log 2 q = e := by
  have a : e ≤ Int.log 2 q :=
    (Int.zpow_le_iff_le_log (by norm_num) hq).mp (by exact_mod_cast h1)
  have b : Int.log 2 q < e + 1 :=
    (Int.lt_zpow_iff_log_lt (by norm_num) hq).mp (by exact_mod_cast h2)
  omega

theorem roundHalfEven_eq (m : ℚ) (n : ℤ) (h1 : (n : ℚ) - 1 / 2 < m)
    (h2 : m < (n : ℚ) + 1 / 2) : roundHalfEven m = n := by
  unfold roundHalfEven
  dsimp only
  have hf1 := Int.floor_le m
  have hf2 := Int.lt_floor_add_one m
  by_cases c1 : m - (⌊m⌋ : ℚ) < 1 / 2
  · rw [if_pos c1]
    have a : ((⌊m⌋ : ℤ) : ℚ) < (n : ℚ) + 1 := by linarith
    have b : (n : ℚ) < ((⌊m⌋ : ℤ) : ℚ) + 1 := by linarith
    have a2 : ⌊m⌋ < n + 1 := by exact_mod_cast a
    have b2 : n < ⌊m⌋ + 1 := by exact_mod_cast b
    omega
  · rw [if_neg c1]
    have c1' : 1 / 2 ≤ m - (⌊m⌋ : ℚ) := not_lt.mp c1
    have a : ((⌊m⌋ : ℤ) : ℚ) < (n : ℚ) := by linarith
    have b : (n : ℚ) < ((⌊m⌋ : ℤ) : ℚ) + 2 := by linarith
    have a2 : ⌊m⌋ < n := by exact_mod_cast a
    have b2 : n < ⌊m⌋ + 2 := by exact_mod_cast b
    have hn : n = ⌊m⌋ + 1 := by omega
    have c2 : 1 / 2 < m - (⌊m⌋ : ℚ) := by
      rcases lt_or_eq_of_le c1' with h | h
      · exact h
      · exfalso
        rw [hn] at h1
        push_cast at h1
        linarith
    rw [if_pos c2, hn]

theorem floor_le_roundHalfEven (m : ℚ) : ⌊m⌋ ≤ roundHalfEven m := by
  unfold roundHalfEven
  dsimp only
  split_ifs <;> omega

theorem roundHalfEven_error (m : ℚ) : |(roundHalfEven m : ℚ) - m| ≤ 1 / 2 := by
  unfold roundHalfEven
  dsimp only
  have hf1 := Int.floor_le m
  have hf2 := Int.lt_floor_add_one m
  rw [abs_le]
  split_ifs with c1 c2 c3
  · constructor <;> linarith
  · push_cast
    constructor <;> linarith
  · constructor <;> linarith
  · push_cast
    constructor <;> linarith

/-- The value of `binary64` at a positive normal `q` with exponent `e` whose
scaled value lies within a half of the integer `n`. -/
theorem binary64_eval (q r : ℚ) (e n : ℤ) (hq : 0 < q) (h1 : (2 : ℚ) ^ e ≤ q)
    (h2 : q < (2 : ℚ) ^ (e + 1)) (he : -1022 ≤ e)
    (hm1 : (n : ℚ) - 1 / 2 < q / (2 : ℚ) ^ (e - 52))
    (hm2 : q / (2 : ℚ) ^ (e - 52) < (n : ℚ) + 1 / 2)
    (hr : r = (n : ℚ) * (2 : ℚ) ^ (e - 52)) (hlt : |r| < (2 : ℚ) ^ (1024 : ℕ)) :
    binary64 q = .fin r := by
  have hu : ulpExp q = e - 52 := by
    unfold ulpExp
    rw [abs_of_pos hq, log2_eq q e hq h1 h2]
    omega
  unfold binary64
  rw [if_neg (ne_of_gt hq)]
  dsimp only
  rw [hu, roundHalfEven_eq _ n hm1 hm2, ← hr, if_neg (not_le.mpr hlt)]

theorem binary64_ne_nan (q : ℚ) : binary64 q ≠ .nan := by
  unfold binary64
  dsimp only
  split_ifs <;> simp

theorem ulpExp_normal (q : ℚ) (hq : (2 : ℚ) ^ (-1022 : ℤ) ≤ |q|) :
    ulpExp q = Int.log 2 |q| - 52 := by
  have h2 : (0 : ℚ) < (2 : ℚ) ^ (-1022 : ℤ) := by positivity
  have hq0 : 0 < |q| := lt_of_lt_of_le h2 hq
  have hlog : (-1022 : ℤ) ≤ Int.log 2 |q| :=
    (Int.zpow_le_iff_le_log (by norm_num) hq0).mp (by exact_mod_cast hq)
  unfold ulpExp
  omega

theorem binary64_ne_zero (q : ℚ) (hq : (2 : ℚ) ^ (-1022 : ℤ) ≤ q) : binary64 q ≠ .fin 0 := by
  have h2 : (0 : ℚ) < (2 : ℚ) ^ (-1022 : ℤ) := by positivity
  have hq0 : 0 < q := lt_of_lt_of_le h2 hq
  have hu : ulpExp q = Int.log 2 q - 52 := by
    have := ulpExp_normal q (by rw [abs_of_pos hq0]; exact hq)
    rwa [abs_of_pos hq0] at this
  have hupos : (0 : ℚ) < (2 : ℚ) ^ (Int.log 2 q - 52) := by positivity
  have hule : (2 : ℚ) ^ (Int.log 2 q - 52) ≤ q := by
    have a : (2 : ℚ) ^ (Int.log 2 q - 52) ≤ (2 : ℚ) ^ (Int.log 2 q) :=
      zpow_le_zpow_right₀ (by norm_num) (by omega)
    have b : (2 : ℚ) ^ (Int.log 2 q) ≤ q := by
      have := Int.zpow_log_le_self (b := 2) (r := q) (by norm_num) hq0
      exact_mod_cast this
    exact le_trans a b
  have hm : (1 : ℚ) ≤ q / (2 : ℚ) ^ (Int.log 2 q - 52) := (one_le_div hupos).mpr hule
  have hfl : (1 : ℤ) ≤ ⌊q / (2 : ℚ) ^ (Int.log 2 q - 52)⌋ :=
    Int.le_floor.mpr (by exact_mod_cast hm)
  have hr : (1 : ℤ) ≤ roundHalfEven (q / (2 : ℚ) ^ (Int.log 2 q - 52)) :=
    le_trans hfl (floor_le_roundHalfEven _)
  have hrq : (0 : ℚ) < (roundHalfEven (q / (2 : ℚ) ^ (Int.log 2 q - 52)) : ℚ) := by
    exact_mod_cast hr
  unfold binary64
  rw [if_neg (ne_of_gt hq0)]
  dsimp only
  rw [hu]
  split_ifs
  · simp
  · intro h
    exact absurd (JsNum.fin.inj h) (ne_of_gt (mul_pos hrq hupos))

/-- A finite value of `binary64` at a normal `q` lies within half a spacing of
`q`. -/
theorem binary64_half_ulp (q r : ℚ) (hq : (2 : ℚ) ^ (-1022 : ℤ) ≤ |q|)
    (h : binary64 q = .fin r) : |r - q| ≤ (2 : ℚ) ^ (Int.log 2 |q| - 52) / 2 := by
  have h2 : (0 : ℚ) < (2 : ℚ) ^ (-1022 : ℤ) := by positivity
  have hq0 : q ≠ 0 := by
    intro e
    rw [e, abs_zero] at hq
    exact absurd hq (not_le.mpr h2)
  have hu := ulpExp_normal q hq
  have hupos : (0 : ℚ) < (2 : ℚ) ^ (Int.log 2 |q| - 52) := by positivity
  unfold binary64 at h
  rw [if_neg hq0] at h
  dsimp only at h
  rw [hu] at h
  split_ifs at h
  have hr : r = (roundHalfEven (q / (2 : ℚ) ^ (Int.log 2 |q| - 52)) : ℚ)
      * (2 : ℚ) ^ (Int.log 2 |q| - 52) := (JsNum.fin.inj h).symm
  have herr := roundHalfEven_error (q / (2 : ℚ) ^ (Int.log 2 |q| - 52))
  have hdiff : r - q = ((roundHalfEven (q / (2 : ℚ) ^ (Int.log 2 |q| - 52)) : ℚ)
      - q / (2 : ℚ) ^ (Int.log 2 |q| - 52)) * (2 : ℚ) ^ (Int.log 2 |q| - 52) := by
    rw [hr, sub_mul, div_mul_cancel₀ _ (ne_of_gt hupos)]
  rw [hdiff, abs_mul, abs_of_pos hupos]
  calc _ ≤ 1 / 2 * (2 : ℚ) ^ (Int.log 2 |q| - 52) :=
        mul_le_mul_of_nonneg_right herr (le_of_lt hupos)
    _ = (2 : ℚ) ^ (Int.log 2 |q| - 52) / 2 := by ring

theorem jsDivNat_ne_zero (a b : ℕ) (ha : a ≠ 0) (hb : b < 2 ^ 31) :
    jsDivNat a b ≠ .fin 0 ∧ jsDivNat a b ≠ .nan := by
  unfold jsDivNat
  by_cases hb0 : b = 0
  · simp [hb0, ha]
  · rw [if_neg hb0]
    refine ⟨binary64_ne_zero _ ?_, binary64_ne_nan _⟩
    have hbpos : (0 : ℚ) < (b : ℚ) := by exact_mod_cast Nat.pos_of_ne_zero hb0
    have hble : (b : ℚ) ≤ 2 ^ 31 := by exact_mod_cast le_of_lt hb
    have ha1 : (1 : ℚ) ≤ (a : ℚ) := by exact_mod_cast Nat.pos_of_ne_zero ha
    rw [le_div_iff₀ hbpos]
    calc (2 : ℚ) ^ (-1022 : ℤ) * (b : ℚ) ≤ (2 : ℚ) ^ (-1022 : ℤ) * 2 ^ 31 :=
          mul_le_mul_of_nonneg_left hble (by positivity)
      _ ≤ 1 := by norm_num
      _ ≤ (a : ℚ) := ha1

theorem mathRound_fin_eq (q : ℚ) (n : ℤ) (h1 : (n : ℚ) ≤ q + 1 / 2) (h2 : q + 1 / 2 < (n : ℚ) + 1) :
    mathRound (.fin q) = .fin (n : ℚ) := by
  have : ⌊q + 1 / 2⌋ = n := Int.floor_eq_iff.mpr ⟨h1, h2⟩
  show JsNum.fin ((⌊q + 1 / 2⌋ : ℤ) : ℚ) = _
  rw [this]

theorem binary64_eight_tenths :
    binary64 (8 / 10) = .fin (7205759403792794 / 9007199254740992) := by
  apply binary64_eval _ _ (-1) 7205759403792794 <;> norm_num [abs_lt]

/-! ### `generateMeme`: the coordinate transform -/

/-- C1, as the script computes. With a template selected and a loaded image of
non-zero natural and displayed width, `generateMeme` sends one request whose
`text_lines` has one entry per layer, in layer order. With `s` the binary64
quotient `naturalWidth / displayedWidth`, the entry of the `i`-th layer has
`x_pos = round(fl(fl(layerScreenLeft - imageScreenLeft) * s))`, `y_pos`
likewise from the tops, and `size = round(fl(fl(N * s) * fl(0.8)))`, where `N`
is the stored size when it is a number and its string-to-number conversion when
it is a string. Here `fl` is `binary64`: the product of finite values is the
rounded exact product, `fl(0.8)` is `7205759403792794 / 2 ^ 53`, and a finite
value of `fl` at a normal `q` is within half a spacing of `q`; `round` takes a
finite value to the nearest integer, a half going up, and leaves an infinity
or NaN as it is. -/
theorem generateMeme_payload_binary64 (b : JsBuiltins) (img : DisplayedImg)
    (elRect : ℕ → ℚ × ℚ) (outcome : FetchOutcome) (s : Editor) (tpl : Template)
    (htpl : s.currentTemplate = some tpl) (hc : img.complete = true)
    (hnw : img.naturalWidth ≠ 0) (how : img.offsetWidth ≠ 0) :
    (∃ lines, (generateMeme b img elRect outcome s).requests =
        s.requests ++ [Request.postMemes tpl.id s.controls.textBorderChecked lines] ∧
      lines.length = s.layers.length ∧
      ∀ i l, s.layers[i]? = some l →
        ∃ e, lines[i]? = some e ∧
          e.x_pos = mathRound ((binary64 ((elRect i).1 - img.rectLeft)).mul
            (binary64 ((img.naturalWidth : ℚ) / (img.offsetWidth : ℚ)))) ∧
          e.y_pos = mathRound ((binary64 ((elRect i).2 - img.rectTop)).mul
            (binary64 ((img.naturalWidth : ℚ) / (img.offsetWidth : ℚ)))) ∧
          (∀ q, l.size = .num q →
            e.size = mathRound (((JsNum.fin q).mul
              (binary64 ((img.naturalWidth : ℚ) / (img.offsetWidth : ℚ)))).mul
              (binary64 (8 / 10)))) ∧
          (∀ t, l.size = .str t →
            e.size = mathRound (((b.strToNum t).mul
              (binary64 ((img.naturalWidth : ℚ) / (img.offsetWidth : ℚ)))).mul
              (binary64 (8 / 10))))) ∧
    (∀ a c, (JsNum.fin a).mul (.fin c) = binary64 (a * c)) ∧
    binary64 (8 / 10) = .fin (7205759403792794 / 9007199254740992) ∧
    (∀ q r, (2 : ℚ) ^ (-1022 : ℤ) ≤ |q| → binary64 q = .fin r →
      |r - q| ≤ (2 : ℚ) ^ (Int.log 2 |q| - 52) / 2) ∧
    (∀ v, ∃ n : ℤ, mathRound (.fin v) = .fin (n : ℚ) ∧ IsRoundHalfUp n v) ∧
    (∀ neg, mathRound (.inf neg) = .inf neg) ∧
    mathRound .nan = .nan := by
  refine ⟨⟨payloadLayers b img elRect s.layers,
    generateMeme_requests b img elRect outcome s tpl htpl hc hnw,
    payloadLayersFrom_length b img elRect 0 s.layers, ?_⟩, fun _ _ => rfl,
    binary64_eight_tenths, binary64_half_ulp,
    fun v => ⟨_, rfl, isRoundHalfUp_floor v⟩, fun _ => rfl, rfl⟩
  intro i l hl
  have hget : (payloadLayers b img elRect s.layers)[i]? =
      some (payloadLayer b img (elRect i).1 (elRect i).2 l) := by
    unfold payloadLayers
    rw [payloadLayersFrom_getElem?, hl]
    simp
  have hs : scaleFactor img = binary64 ((img.naturalWidth : ℚ) / (img.offsetWidth : ℚ)) := by
    simp [scaleFactor, jsDivNat, how]
  refine ⟨_, hget, ?_, ?_, ?_, ?_⟩
  · simp only [payloadLayer, hs]
  · simp only [payloadLayer, hs]
  · intro q hq
    simp only [payloadLayer, hs, hq, toNumber]
  · intro t ht
    simp only [payloadLayer, hs, ht, toNumber]

theorem generateMeme_payload_binary64_witness :
    ∃ e, (generateMeme nanBuiltins halfScaleImg (fun _ => (10, 10)) (.data 200 (some "abc"))
        sampleSession).requests = [Request.postMemes 1 true [e]] ∧
      e.x_pos = .fin 20 ∧ e.y_pos = .fin 20 ∧ e.size = .fin 80 := by
  obtain ⟨⟨lines, hreq, hlen, hall⟩, _⟩ :=
    generateMeme_payload_binary64 nanBuiltins halfScaleImg (fun _ => (10, 10))
      (.data 200 (some "abc")) sampleSession templateT1 rfl rfl (by decide) (by decide)
  obtain ⟨e, he, hx, hy, hsz, _⟩ := hall 0 sampleLayer rfl
  have hlen1 : lines.length = 1 := hlen
  obtain ⟨e0, he0⟩ := List.length_eq_one.mp hlen1
  have hee : e0 = e := by
    rw [he0] at he
    simpa using he
  have hten : binary64 ((10 : ℚ) - 0) = .fin 10 := by
    apply binary64_eval _ _ 3 5629499534213120 <;> norm_num [abs_lt]
  have hscale : binary64 (((1000 : ℕ) : ℚ) / ((500 : ℕ) : ℚ)) = .fin 2 := by
    apply binary64_eval _ _ 1 4503599627370496 <;> norm_num [abs_lt]
  have htwenty : binary64 ((10 : ℚ) * 2) = .fin 20 := by
    apply binary64_eval _ _ 4 5629499534213120 <;> norm_num [abs_lt]
  have hhundred : binary64 ((50 : ℚ) * 2) = .fin 100 := by
    apply binary64_eval _ _ 6 7036874417766400 <;> norm_num [abs_lt]
  have heighty : binary64 ((100 : ℚ) * (7205759403792794 / 9007199254740992)) = .fin 80 := by
    apply binary64_eval _ _ 6 5629499534213120 <;> norm_num [abs_lt]
  have hr20 : mathRound (.fin 20) = .fin 20 := by
    have := mathRound_fin_eq 20 20 (by norm_num) (by norm_num)
    simpa using this
  have hr80 : mathRound (.fin 80) = .fin 80 := by
    have := mathRound_fin_eq 80 80 (by norm_num) (by norm_num)
    simpa using this
  have hxy : mathRound ((binary64 ((10 : ℚ) - 0)).mul
      (binary64 (((1000 : ℕ) : ℚ) / ((500 : ℕ) : ℚ)))) = .fin 20 := by
    rw [hten, hscale]
    show mathRound (binary64 ((10 : ℚ) * 2)) = _
    rw [htwenty, hr20]
  have hsize : mathRound (((JsNum.fin 50).mul
      (binary64 (((1000 : ℕ) : ℚ) / ((500 : ℕ) : ℚ)))).mul (binary64 (8 / 10))) = .fin 80 := by
    rw [hscale, binary64_eight_tenths]
    show mathRound ((binary64 ((50 : ℚ) * 2)).mul _) = _
    rw [hhundred]
    show mathRound (binary64 ((100 : ℚ) * (7205759403792794 / 9007199254740992))) = _
    rw [heighty, hr80]
  refine ⟨e, ?_, ?_, ?_, ?_⟩
  · rw [hreq, he0, hee]
    rfl
  · rw [hx]
    exact hxy
  · rw [hy]
    exact hxy
  · rw [hsz 50 rfl]
    exact hsize

/-- C1 fails as stated: for an image of natural width 1000 displayed 304 wide
and a layer 19 to the right of the image, the entry sent has `x_pos = 62`,
while the nearest integer, a half going up, to the exact `19 * (1000 / 304)`
is 63. -/
theorem generateMeme_rounds_below_exact :
    ∃ e, (generateMeme nanBuiltins narrowImg (fun _ => (19, 0)) (.data 200 (some "abc"))
        sampleSession).requests = [Request.postMemes 1 true [e]] ∧
      e.x_pos = .fin 62 ∧
      IsRoundHalfUp 63 (((19 : ℚ) - 0) * ((1000 : ℚ) / 304)) ∧
      ¬ IsRoundHalfUp 62 (((19 : ℚ) - 0) * ((1000 : ℚ) / 304)) := by
  have hreq := generateMeme_requests nanBuiltins narrowImg (fun _ => (19, 0))
    (.data 200 (some "abc")) sampleSession templateT1 rfl rfl (by decide)
  have h1 : binary64 ((19 : ℚ) - 0) = .fin 19 := by
    apply binary64_eval _ _ 4 5348024557502464 <;> norm_num [abs_lt]
  have h2 : jsDivNat 1000 304 = .fin (7407236229227789 / 2251799813685248) := by
    unfold jsDivNat
    rw [if_neg (by decide)]
    apply binary64_eval _ _ 1 7407236229227789 <;> norm_num [abs_lt]
  have h3 : binary64 ((19 : ℚ) * (7407236229227789 / 2251799813685248))
      = .fin (8796093022207999 / 140737488355328) := by
    apply binary64_eval _ _ 5 8796093022207999 <;> norm_num [abs_lt]
  have h4 : mathRound (.fin (8796093022207999 / 140737488355328)) = .fin 62 := by
    have := mathRound_fin_eq (8796093022207999 / 140737488355328) 62 (by norm_num)
      (by norm_num)
    simpa using this
  refine ⟨payloadLayer nanBuiltins narrowImg 19 0 sampleLayer, hreq, ?_, ?_, ?_⟩
  · show mathRound ((binary64 ((19 : ℚ) - 0)).mul (jsDivNat 1000 304)) = _
    rw [h1, h2]
    show mathRound (binary64 ((19 : ℚ) * (7407236229227789 / 2251799813685248))) = _
    rw [h3, h4]
  · norm_num [IsRoundHalfUp]
  · norm_num [IsRoundHalfUp]

/-! ### `generateMeme`: the guards and the submission -/

theorem generateMeme_no_template (b : JsBuiltins) (img : DisplayedImg) (elRect : ℕ → ℚ × ℚ)
    (outcome : FetchOutcome) (s : Editor) (h : s.currentTemplate = none) :
    generateMeme b img elRect outcome s = s := by
  unfold generateMeme
  rw [h]

theorem generateMeme_not_loaded (b : JsBuiltins) (img : DisplayedImg) (elRect : ℕ → ℚ × ℚ)
    (outcome : FetchOutcome) (s : Editor) (tpl : Template) (h : s.currentTemplate = some tpl)
    (himg : img.complete = false ∨ img.naturalWidth = 0) :
    generateMeme b img elRect outcome s =
      { s with alerts := s.alerts ++ ["Image not loaded yet."] } := by
  unfold generateMeme
  rw [h]
  have hcond : (!img.complete || img.naturalWidth == 0) = true := by
    rcases himg with h1 | h1 <;> simp [h1]
  simp only [hcond, if_true]

theorem scaleFactor_ne_zero (img : DisplayedImg) (hnw : img.naturalWidth ≠ 0) :
    scaleFactor img ≠ .fin 0 ∧ scaleFactor img ≠ .nan :=
  jsDivNat_ne_zero img.naturalWidth img.offsetWidth hnw img.offsetWidth_lt

/-- C10, as the script behaves. When the image has not finished loading or has
natural width 0, `generateMeme` sends no request, starts no polling loop and
leaves the layer store as it was; it shows the message `Image not loaded yet.`
when a template is selected and shows nothing when none is. Conversely, in
every state `generateMeme` either sends no request or sends exactly one, built
from an image of non-zero natural width with a scale factor that is neither 0
nor NaN. -/
theorem generateMeme_rejects_unloaded_image (b : JsBuiltins) (img : DisplayedImg)
    (elRect : ℕ → ℚ × ℚ) (outcome : FetchOutcome) (s : Editor) :
    ((img.complete = false ∨ img.naturalWidth = 0) →
      (generateMeme b img elRect outcome s).requests = s.requests ∧
      (generateMeme b img elRect outcome s).timers = s.timers ∧
      (generateMeme b img elRect outcome s).layers = s.layers ∧
      (generateMeme b img elRect outcome s).activeLayerId = s.activeLayerId ∧
      (generateMeme b img elRect outcome s).layerCounter = s.layerCounter ∧
      (generateMeme b img elRect outcome s).alerts =
        (if s.currentTemplate = none then s.alerts
         else s.alerts ++ ["Image not loaded yet."])) ∧
    ((generateMeme b img elRect outcome s).requests = s.requests ∨
      ∃ tpl, s.currentTemplate = some tpl ∧
        (generateMeme b img elRect outcome s).requests =
          s.requests ++ [Request.postMemes tpl.id s.controls.textBorderChecked
            (payloadLayers b img elRect s.layers)] ∧
        img.complete = true ∧ img.naturalWidth ≠ 0 ∧
        scaleFactor img ≠ .fin 0 ∧ scaleFactor img ≠ .nan) := by
  constructor
  · intro himg
    cases htpl : s.currentTemplate with
    | none =>
      rw [generateMeme_no_template b img elRect outcome s htpl]
      simp
    | some tpl =>
      rw [generateMeme_not_loaded b img elRect outcome s tpl htpl himg]
      simp
  · cases htpl : s.currentTemplate with
    | none =>
      left
      rw [generateMeme_no_template b img elRect outcome s htpl]
    | some tpl =>
      by_cases himg : img.complete = false ∨ img.naturalWidth = 0
      · left
        rw [generateMeme_not_loaded b img elRect outcome s tpl htpl himg]
      · right
        have hc : img.complete = true := by
          cases h : img.complete
          · exact absurd (Or.inl h) himg
          · rfl
        have hnw : img.naturalWidth ≠ 0 := fun h => himg (Or.inr h)
        exact ⟨tpl, rfl, generateMeme_requests b img elRect outcome s tpl htpl hc hnw, hc, hnw,
          scaleFactor_ne_zero img hnw⟩

theorem generateMeme_rejects_unloaded_image_witness :
    (generateMeme nanBuiltins unloadedImg (fun _ => (10, 10)) (.data 200 (some "abc"))
        sampleSession).requests = sampleSession.requests ∧
    (generateMeme nanBuiltins unloadedImg (fun _ => (10, 10)) (.data 200 (some "abc"))
        sampleSession).timers = sampleSession.timers ∧
    (generateMeme nanBuiltins unloadedImg (fun _ => (10, 10)) (.data 200 (some "abc"))
        sampleSession).layers = sampleSession.layers ∧
    (generateMeme nanBuiltins unloadedImg (fun _ => (10, 10)) (.data 200 (some "abc"))
        sampleSession).activeLayerId = sampleSession.activeLayerId ∧
    (generateMeme nanBuiltins unloadedImg (fun _ => (10, 10)) (.data 200 (some "abc"))
        sampleSession).layerCounter = sampleSession.layerCounter ∧
    (generateMeme nanBuiltins unloadedImg (fun _ => (10, 10)) (.data 200 (some "abc"))
        sampleSession).alerts =
      (if sampleSession.currentTemplate = none then sampleSession.alerts
       else sampleSession.alerts ++ ["Image not loaded yet."]) :=
  (generateMeme_rejects_unloaded_image nanBuiltins unloadedImg (fun _ => (10, 10))
    (.data 200 (some "abc")) sampleSession).1 (Or.inl rfl)

/-- C10 fails as stated: on the page as loaded, with no template selected and
an image that has not finished loading, `generateMeme` returns without showing
any message. -/
theorem generateMeme_silent_without_template :
    unloadedImg.complete = false ∧
    (generateMeme nanBuiltins unloadedImg (fun _ => (0, 0)) (.data 200 (some "abc"))
        (initial none true)).alerts = [] :=
  ⟨rfl, by rw [generateMeme_no_template _ _ _ _ _ rfl]; rfl⟩

theorem generateMeme_data_timers (b : JsBuiltins) (img : DisplayedImg) (elRect : ℕ → ℚ × ℚ)
    (status : ℕ) (task_id : Option String) (s : Editor) (tpl : Template)
    (htpl : s.currentTemplate = some tpl) (hc : img.complete = true)
    (hnw : img.naturalWidth ≠ 0) :
    (generateMeme b img elRect (.data status task_id) s).timers =
        s.timers ++ [{ taskId := task_id, active := true }] ∧
      (generateMeme b img elRect (.data status task_id) s).view.loaderDisplay = "block" ∧
      (generateMeme b img elRect (.data status task_id) s).view.statusText = "Processing..." ∧
      (generateMeme b img elRect (.data status task_id) s).currentTemplate = some tpl := by
  unfold generateMeme
  rw [htpl]
  have hcond : (!img.complete || img.naturalWidth == 0) = false := by simp [hc, hnw]
  simp only [hcond, Bool.false_eq_true, if_false]
  exact ⟨rfl, rfl, rfl, rfl⟩

/-- C7 at its failing input: the `POST /memes` answer has status 500 and the
JSON body `{"detail": "boom"}` without `task_id`; `generateMeme` starts a
polling interval for the undefined task, leaves the loader shown and the status
text at `Processing...`, and shows no error message. -/
theorem generateMeme_polls_after_http_500 :
    (generateMeme nanBuiltins halfScaleImg (fun _ => (10, 10)) (.data 500 none)
        sampleSession).timers = [{ taskId := none, active := true }] ∧
    (generateMeme nanBuiltins halfScaleImg (fun _ => (10, 10)) (.data 500 none)
        sampleSession).view.loaderDisplay = "block" ∧
    (generateMeme nanBuiltins halfScaleImg (fun _ => (10, 10)) (.data 500 none)
        sampleSession).view.statusText = "Processing..." := by
  obtain ⟨h1, h2, h3, _⟩ := generateMeme_data_timers nanBuiltins halfScaleImg (fun _ => (10, 10))
    500 none sampleSession templateT1 rfl rfl (by decide)
  exact ⟨h1, h2, h3⟩

/-! ### `pollStatus` -/

theorem pollResponse_nonterminal (k : ℕ) (r : PollOutcome) (s : Editor)
    (h : r.terminal = false) : pollResponse k r s = s := by
  cases r with
  | throws => rfl
  | data status url =>
    simp only [PollOutcome.terminal, Bool.or_eq_false_iff] at h
    simp [pollResponse, h.1, h.2]

theorem pollResponses_nonterminal (k : ℕ) (rs : List PollOutcome) (s : Editor)
    (h : ∀ r ∈ rs, r.terminal = false) : pollResponses k rs s = s := by
  induction rs generalizing s with
  | nil => rfl
  | cons r rs ih =>
    have hr : pollResponse k r s = s := pollResponse_nonterminal k r s (h r (by simp))
    show pollResponses k rs (pollResponse k r s) = s
    rw [hr]
    exact ih s (fun x hx => h x (by simp [hx]))

theorem pollResponses_snoc (k : ℕ) (rs : List PollOutcome) (r : PollOutcome) (s : Editor) :
    pollResponses k (rs ++ [r]) s = pollResponse k r (pollResponses k rs s) := by
  simp [pollResponses, List.foldl_append]

theorem clearIntervalAt_last (ts : List Timer) (t : Timer) :
    clearIntervalAt ts.length (ts ++ [t]) = ts ++ [{ t with active := false }] := by
  induction ts with
  | nil => rfl
  | cons a ts ih => simp [clearIntervalAt, ih]

theorem getElem?_last (ts : List Timer) (t : Timer) : (ts ++ [t]).get? ts.length = some t := by
  simp

/-- C4. For the loop started by `pollStatus(taskId)` and every sequence of
answers none of which has status `Done` or `Failed` (thrown queries included),
the poller is still polling after the sequence and its interval still fires a
status request. If the next answer has status `Done` with location `url`, the
poller is completed with result location `url`; if it has status `Failed`, the
poller is failed; in both cases the interval is cleared at that answer and a
later firing issues no request. -/
theorem poll_loop_runs_until_terminal (taskId : Option String) (s0 : Editor)
    (rs : List PollOutcome) (hrs : ∀ r ∈ rs, r.terminal = false) :
    pollerPhase s0.timers.length (pollResponses s0.timers.length rs (pollStatus taskId s0))
      = some .polling ∧
    (intervalFires s0.timers.length
        (pollResponses s0.timers.length rs (pollStatus taskId s0))).requests
      = s0.requests ++ [Request.getMeme taskId] ∧
    (∀ url,
      pollerPhase s0.timers.length
          (pollResponses s0.timers.length (rs ++ [.data (some "Done") url]) (pollStatus taskId s0))
        = some (.completed url) ∧
      (pollResponses s0.timers.length (rs ++ [.data (some "Done") url])
          (pollStatus taskId s0)).timers = s0.timers ++ [{ taskId := taskId, active := false }] ∧
      intervalFires s0.timers.length
          (pollResponses s0.timers.length (rs ++ [.data (some "Done") url]) (pollStatus taskId s0))
        = pollResponses s0.timers.length (rs ++ [.data (some "Done") url])
            (pollStatus taskId s0)) ∧
    (∀ url,
      pollerPhase s0.timers.length
          (pollResponses s0.timers.length (rs ++ [.data (some "Failed") url])
            (pollStatus taskId s0))
        = some .failed ∧
      (pollResponses s0.timers.length (rs ++ [.data (some "Failed") url])
          (pollStatus taskId s0)).timers = s0.timers ++ [{ taskId := taskId, active := false }] ∧
      intervalFires s0.timers.length
          (pollResponses s0.timers.length (rs ++ [.data (some "Failed") url])
            (pollStatus taskId s0))
        = pollResponses s0.timers.length (rs ++ [.data (some "Failed") url])
            (pollStatus taskId s0)) := by
  have hpre := pollResponses_nonterminal s0.timers.length rs (pollStatus taskId s0) hrs
  have hget : (pollStatus taskId s0).timers.get? s0.timers.length
      = some { taskId := taskId, active := true } := getElem?_last _ _
  have hclr : clearIntervalAt s0.timers.length (pollStatus taskId s0).timers
      = s0.timers ++ [{ taskId := taskId, active := false }] := clearIntervalAt_last _ _
  have hget2 : (s0.timers ++ [({ taskId := taskId, active := false } : Timer)]).get?
      s0.timers.length = some { taskId := taskId, active := false } := getElem?_last _ _
  refine ⟨?_, ?_, ?_, ?_⟩
  · rw [hpre]
    unfold pollerPhase
    rw [hget]
    rfl
  · rw [hpre]
    unfold intervalFires
    rw [hget]
    rfl
  · intro url
    rw [pollResponses_snoc, hpre]
    have hstep : pollResponse s0.timers.length (.data (some "Done") url) (pollStatus taskId s0)
        = { pollStatus taskId s0 with
            timers := s0.timers ++ [{ taskId := taskId, active := false }]
            view :=
              { (pollStatus taskId s0).view with
                loaderDisplay := "none"
                statusText := "Done!"
                imgSrc := url
                imgDisplay := "block" }
            elevatorMusic := pauseMusic true (pollStatus taskId s0).elevatorMusic } := by
      simp only [pollResponse, beq_self_eq_true, if_true, hclr]
    rw [hstep]
    refine ⟨?_, rfl, ?_⟩
    · unfold pollerPhase
      dsimp only
      rw [hget2]
      rfl
    · unfold intervalFires
      dsimp only
      rw [hget2]
      rfl
  · intro url
    rw [pollResponses_snoc, hpre]
    have hne : ((some "Failed" : Option String) == some "Done") = false := by decide
    have hstep : pollResponse s0.timers.length (.data (some "Failed") url) (pollStatus taskId s0)
        = { pollStatus taskId s0 with
            timers := s0.timers ++ [{ taskId := taskId, active := false }]
            view :=
              { (pollStatus taskId s0).view with
                statusText := "Generation Failed"
                loaderDisplay := "none" }
            elevatorMusic := pauseMusic false (pollStatus taskId s0).elevatorMusic } := by
      simp only [pollResponse, hne, Bool.false_eq_true, if_false, beq_self_eq_true, if_true, hclr]
    rw [hstep]
    refine ⟨?_, rfl, ?_⟩
    · unfold pollerPhase
      dsimp only
      rw [hget2]
      rfl
    · unfold intervalFires
      dsimp only
      rw [hget2]
      rfl

theorem poll_loop_runs_until_terminal_witness :
    pollerPhase 0 (pollResponses 0 [pendingAnswer] (pollStatus (some "abc") sampleSession))
      = some .polling ∧
    pollerPhase 0
        (pollResponses 0 [pendingAnswer, pendingAnswer] (pollStatus (some "abc") sampleSession))
      = some .polling ∧
    pollerPhase 0
        (pollResponses 0 ([pendingAnswer, pendingAnswer] ++ [.data (some "Done") (some "X")])
          (pollStatus (some "abc") sampleSession))
      = some (.completed (some "X")) ∧
    intervalFires 0
        (pollResponses 0 ([pendingAnswer, pendingAnswer] ++ [.data (some "Done") (some "X")])
          (pollStatus (some "abc") sampleSession))
      = pollResponses 0 ([pendingAnswer, pendingAnswer] ++ [.data (some "Done") (some "X")])
          (pollStatus (some "abc") sampleSession) := by
  have h1 := poll_loop_runs_until_terminal (some "abc") sampleSession [pendingAnswer]
    (by decide)
  have h2 := poll_loop_runs_until_terminal (some "abc") sampleSession
    [pendingAnswer, pendingAnswer] (by decide)
  exact ⟨h1.1, h2.1, (h2.2.2.1 (some "X")).1, (h2.2.2.1 (some "X")).2.2⟩

/-! ### Two submissions -/

theorem activeTimers_append (s : Editor) (ts : List Timer) (extra : List Timer)
    (h : s.timers = ts ++ extra) :
    activeTimers s = (ts.filter fun t => t.active).length
      + (extra.filter fun t => t.active).length := by
  simp [activeTimers, h, List.filter_append]

theorem get?_append_add (ts rest : List Timer) (j : ℕ) :
    (ts ++ rest).get? (ts.length + j) = rest.get? j := by
  induction ts with
  | nil => simp
  | cons a ts ih =>
    have e : (a :: ts).length + j = (ts.length + j) + 1 := by
      simp only [List.length_cons]
      omega
    rw [e]
    exact ih

theorem clearIntervalAt_append (ts rest : List Timer) (j : ℕ) :
    clearIntervalAt (ts.length + j) (ts ++ rest) = ts ++ clearIntervalAt j rest := by
  induction ts with
  | nil => simp
  | cons a ts ih =>
    have e : (a :: ts).length + j = (ts.length + j) + 1 := by
      simp only [List.length_cons]
      omega
    rw [e]
    simp [clearIntervalAt, ih]

theorem pollResponse_terminal_timers (j : ℕ) (r : PollOutcome) (s : Editor)
    (h : r.terminal = true) : (pollResponse j r s).timers = clearIntervalAt j s.timers := by
  cases r with
  | throws => simp [PollOutcome.terminal] at h
  | data status url =>
    unfold pollResponse
    dsimp only
    split_ifs with h1 h2
    · rfl
    · rfl
    · simp [PollOutcome.terminal, h1, h2] at h

theorem submitTwice_timers (b : JsBuiltins) (img1 img2 : DisplayedImg)
    (elRect1 elRect2 : ℕ → ℚ × ℚ) (status1 status2 : ℕ) (task1 task2 : Option String)
    (s : Editor) (tpl : Template) (rs : List PollOutcome)
    (htpl : s.currentTemplate = some tpl)
    (hc1 : img1.complete = true) (hnw1 : img1.naturalWidth ≠ 0)
    (hc2 : img2.complete = true) (hnw2 : img2.naturalWidth ≠ 0)
    (hrs : ∀ r ∈ rs, r.terminal = false) :
    (submitTwice b img1 img2 elRect1 elRect2 status1 status2 task1 task2 rs s).timers
      = s.timers ++ [{ taskId := task1, active := true }, { taskId := task2, active := true }] := by
  obtain ⟨h1, _, _, h1t⟩ :=
    generateMeme_data_timers b img1 elRect1 status1 task1 s tpl htpl hc1 hnw1
  have hpre := pollResponses_nonterminal s.timers.length rs
    (generateMeme b img1 elRect1 (.data status1 task1) s) hrs
  unfold submitTwice
  rw [hpre]
  obtain ⟨h2, _, _, _⟩ :=
    generateMeme_data_timers b img2 elRect2 status2 task2 _ tpl h1t hc2 hnw2
  rw [h2, h1]
  simp

/-- C5, as the script behaves. When `generateMeme` succeeds, answers without
status `Done` or `Failed` arrive for its polling loop, and `generateMeme`
succeeds a second time, the second call adds a live interval and leaves the
first one live: the intervals are those of before followed by the two new live
ones, and the number of live intervals has grown by two. Afterwards each of
the two intervals still fires its own status request, an answer without
`Done` or `Failed` changes nothing, an answer with `Done` or `Failed` for the
first loop clears the first interval and leaves the second live, and one for
the second loop clears the second and leaves the first live. -/
theorem second_submission_keeps_first_timer (b : JsBuiltins) (img1 img2 : DisplayedImg)
    (elRect1 elRect2 : ℕ → ℚ × ℚ) (status1 status2 : ℕ) (task1 task2 : Option String)
    (s : Editor) (tpl : Template) (rs : List PollOutcome)
    (htpl : s.currentTemplate = some tpl)
    (hc1 : img1.complete = true) (hnw1 : img1.naturalWidth ≠ 0)
    (hc2 : img2.complete = true) (hnw2 : img2.naturalWidth ≠ 0)
    (hrs : ∀ r ∈ rs, r.terminal = false) :
    (submitTwice b img1 img2 elRect1 elRect2 status1 status2 task1 task2 rs s).timers
      = s.timers ++ [{ taskId := task1, active := true }, { taskId := task2, active := true }] ∧
    activeTimers (submitTwice b img1 img2 elRect1 elRect2 status1 status2 task1 task2 rs s)
      = activeTimers s + 2 ∧
    (intervalFires s.timers.length
        (submitTwice b img1 img2 elRect1 elRect2 status1 status2 task1 task2 rs s)).requests
      = (submitTwice b img1 img2 elRect1 elRect2 status1 status2 task1 task2 rs s).requests
          ++ [Request.getMeme task1] ∧
    (intervalFires (s.timers.length + 1)
        (submitTwice b img1 img2 elRect1 elRect2 status1 status2 task1 task2 rs s)).requests
      = (submitTwice b img1 img2 elRect1 elRect2 status1 status2 task1 task2 rs s).requests
          ++ [Request.getMeme task2] ∧
    (∀ j r, r.terminal = false →
      pollResponse j r
          (submitTwice b img1 img2 elRect1 elRect2 status1 status2 task1 task2 rs s)
        = submitTwice b img1 img2 elRect1 elRect2 status1 status2 task1 task2 rs s) ∧
    (∀ r, r.terminal = true →
      (pollResponse s.timers.length r
          (submitTwice b img1 img2 elRect1 elRect2 status1 status2 task1 task2 rs s)).timers
        = s.timers ++
            [{ taskId := task1, active := false }, { taskId := task2, active := true }]) ∧
    (∀ r, r.terminal = true →
      (pollResponse (s.timers.length + 1) r
          (submitTwice b img1 img2 elRect1 elRect2 status1 status2 task1 task2 rs s)).timers
        = s.timers ++
            [{ taskId := task1, active := true }, { taskId := task2, active := false }]) := by
  have htim := submitTwice_timers b img1 img2 elRect1 elRect2 status1 status2 task1 task2 s tpl rs
    htpl hc1 hnw1 hc2 hnw2 hrs
  refine ⟨htim, ?_, ?_, ?_, ?_, ?_, ?_⟩
  · rw [activeTimers_append _ _ _ htim]
    simp [activeTimers]
  · have hg : (s.timers ++ [({ taskId := task1, active := true } : Timer),
        { taskId := task2, active := true }]).get? s.timers.length
        = some { taskId := task1, active := true } :=
      get?_append_add s.timers _ 0
    unfold intervalFires
    rw [htim, hg]
    rfl
  · have hg : (s.timers ++ [({ taskId := task1, active := true } : Timer),
        { taskId := task2, active := true }]).get? (s.timers.length + 1)
        = some { taskId := task2, active := true } :=
      get?_append_add s.timers _ 1
    unfold intervalFires
    rw [htim, hg]
    rfl
  · intro j r hr
    exact pollResponse_nonterminal j r _ hr
  · intro r hr
    rw [pollResponse_terminal_timers _ r _ hr, htim]
    have := clearIntervalAt_append s.timers
      [{ taskId := task1, active := true }, { taskId := task2, active := true }] 0
    simpa [clearIntervalAt] using this
  · intro r hr
    rw [pollResponse_terminal_timers _ r _ hr, htim]
    have := clearIntervalAt_append s.timers
      [{ taskId := task1, active := true }, { taskId := task2, active := true }] 1
    simpa [clearIntervalAt] using this

theorem second_submission_keeps_first_timer_witness :
    (submitTwice nanBuiltins halfScaleImg halfScaleImg (fun _ => (10, 10)) (fun _ => (10, 10))
        200 200 (some "abc") (some "def") [pendingAnswer] sampleSession).timers
      = [{ taskId := some "abc", active := true }, { taskId := some "def", active := true }] ∧
    (pollResponse 1 (.data (some "Done") (some "X"))
        (submitTwice nanBuiltins halfScaleImg halfScaleImg (fun _ => (10, 10))
          (fun _ => (10, 10)) 200 200 (some "abc") (some "def") [pendingAnswer]
          sampleSession)).timers
      = [{ taskId := some "abc", active := true }, { taskId := some "def", active := false }] := by
  have h := second_submission_keeps_first_timer nanBuiltins halfScaleImg halfScaleImg
    (fun _ => (10, 10)) (fun _ => (10, 10)) 200 200 (some "abc") (some "def") sampleSession
    templateT1 [pendingAnswer] rfl rfl (by decide) rfl (by decide) (by decide)
  exact ⟨h.1, h.2.2.2.2.2.2 (.data (some "Done") (some "X")) (by decide)⟩

/-- C5 fails as stated: on a page with no interval, two successful calls of
`generateMeme` with no poll answer in between leave two live intervals, the
first of them for the first task. -/
theorem two_submissions_two_live_timers :
    activeTimers sampleSession = 0 ∧
    (generateMeme nanBuiltins halfScaleImg (fun _ => (10, 10)) (.data 200 (some "def"))
        (generateMeme nanBuiltins halfScaleImg (fun _ => (10, 10)) (.data 200 (some "abc"))
          sampleSession)).timers
      = [{ taskId := some "abc", active := true }, { taskId := some "def", active := true }] ∧
    activeTimers (generateMeme nanBuiltins halfScaleImg (fun _ => (10, 10))
        (.data 200 (some "def"))
        (generateMeme nanBuiltins halfScaleImg (fun _ => (10, 10)) (.data 200 (some "abc"))
          sampleSession)) = 2 := by
  obtain ⟨h1, _, _, h1t⟩ := generateMeme_data_timers nanBuiltins halfScaleImg (fun _ => (10, 10))
    200 (some "abc") sampleSession templateT1 rfl rfl (by decide)
  obtain ⟨h2, _, _, _⟩ := generateMeme_data_timers nanBuiltins halfScaleImg (fun _ => (10, 10))
    200 (some "def") _ templateT1 h1t rfl (by decide)
  have htim : (generateMeme nanBuiltins halfScaleImg (fun _ => (10, 10)) (.data 200 (some "def"))
        (generateMeme nanBuiltins halfScaleImg (fun _ => (10, 10)) (.data 200 (some "abc"))
          sampleSession)).timers
      = [{ taskId := some "abc", active := true }, { taskId := some "def", active := true }] := by
    rw [h2, h1]
    rfl
  refine ⟨rfl, htim, ?_⟩
  unfold activeTimers
  rw [htim]
  rfl

/-! ### `selectTemplate` -/

theorem setActiveLayer_keeps (id : ℕ) (s : Editor) :
    (setActiveLayer id s).layerCounter = s.layerCounter ∧
    (setActiveLayer id s).pendingTimeouts = s.pendingTimeouts := by
  unfold setActiveLayer updateControlsUI
  dsimp only
  split <;> exact ⟨rfl, rfl⟩

theorem runTimeout_succ (id : ℕ) (s : Editor) (n : ℕ) (h : s.pendingTimeouts = n + 1) :
    layerIds (runTimeout id s) = layerIds s ++ [id] ∧
    (runTimeout id s).activeLayerId = some id ∧
    (runTimeout id s).layerCounter = s.layerCounter ∧
    (runTimeout id s).pendingTimeouts = n := by
  unfold runTimeout
  rw [h]
  dsimp only
  refine ⟨?_, addNewLayer_activeLayerId _ _ _, ?_, ?_⟩
  · rw [addNewLayer_layerIds]
    rfl
  · unfold addNewLayer
    rw [(setActiveLayer_keeps _ _).1]
    simp
  · unfold addNewLayer
    rw [(setActiveLayer_keeps _ _).2]

theorem runTimeouts_fold (ids : List ℕ) (s : Editor) (h : ids.length ≤ s.pendingTimeouts) :
    layerIds (ids.foldl (fun st i => runTimeout i st) s) = layerIds s ++ ids ∧
    (ids.foldl (fun st i => runTimeout i st) s).activeLayerId =
      (match ids.getLast? with
       | some i => some i
       | none => s.activeLayerId) ∧
    (ids.foldl (fun st i => runTimeout i st) s).layerCounter = s.layerCounter ∧
    (ids.foldl (fun st i => runTimeout i st) s).pendingTimeouts =
      s.pendingTimeouts - ids.length := by
  induction ids generalizing s with
  | nil => simp
  | cons i ids ih =>
    have hlen : ids.length + 1 ≤ s.pendingTimeouts := h
    obtain ⟨n, hn⟩ : ∃ n, s.pendingTimeouts = n + 1 := ⟨s.pendingTimeouts - 1, by omega⟩
    obtain ⟨r1, r2, r3, r4⟩ := runTimeout_succ i s n hn
    obtain ⟨q1, q2, q3, q4⟩ := ih (runTimeout i s) (by rw [r4]; omega)
    simp only [List.foldl_cons]
    refine ⟨?_, ?_, ?_, ?_⟩
    · rw [q1, r1]
      simp
    · rw [q2]
      cases hl : ids.getLast? with
      | none =>
        have : ids = [] := List.getLast?_eq_none_iff.mp hl
        subst this
        simpa using r2
      | some j =>
        have hne : ids ≠ [] := by
          intro e
          rw [e] at hl
          simp at hl
        obtain ⟨a, as, rfl⟩ := List.exists_cons_of_ne_nil hne
        rw [List.getLast?_cons_cons, hl]
    · rw [q3, r3]
    · rw [q4, r4, hn]
      simp only [List.length_cons]
      omega

theorem runAllTimeouts_eq (fresh : ℕ → ℕ) (s : Editor) :
    runAllTimeouts fresh s =
      ((List.range s.pendingTimeouts).map fresh).foldl (fun st i => runTimeout i st) s := by
  unfold runAllTimeouts
  rw [List.foldl_map]

/-- C6, as the script behaves. For every prior state with `k` deferred layer
creations still pending from earlier selections, and every template, once
`selectTemplate` and all the deferred creations have run the store holds
exactly `k + 1` layers, one per deferred creation in the order they ran, so
exactly one layer when none was pending; the layer created last is the active
one, the placeholder counter equals 1, and no deferred creation is pending. -/
theorem selectTemplate_then_deferred_layers (fresh : ℕ → ℕ) (tpl : Template) (s : Editor) :
    (runAllTimeouts fresh (selectTemplate tpl s)).layers.length = s.pendingTimeouts + 1 ∧
    layerIds (runAllTimeouts fresh (selectTemplate tpl s)) =
      (List.range (s.pendingTimeouts + 1)).map fresh ∧
    (runAllTimeouts fresh (selectTemplate tpl s)).activeLayerId =
      some (fresh s.pendingTimeouts) ∧
    (runAllTimeouts fresh (selectTemplate tpl s)).layerCounter = 1 ∧
    (runAllTimeouts fresh (selectTemplate tpl s)).pendingTimeouts = 0 := by
  have hp : (selectTemplate tpl s).pendingTimeouts = s.pendingTimeouts + 1 := rfl
  have hl : layerIds (selectTemplate tpl s) = [] := rfl
  have hc : (selectTemplate tpl s).layerCounter = 1 := rfl
  obtain ⟨q1, q2, q3, q4⟩ := runTimeouts_fold ((List.range (s.pendingTimeouts + 1)).map fresh)
    (selectTemplate tpl s) (by simp [hp])
  have hids : layerIds (runAllTimeouts fresh (selectTemplate tpl s)) =
      (List.range (s.pendingTimeouts + 1)).map fresh := by
    rw [runAllTimeouts_eq, hp, q1, hl]
    simp
  refine ⟨?_, hids, ?_, ?_, ?_⟩
  · have := congrArg List.length hids
    simpa [layerIds] using this
  · rw [runAllTimeouts_eq, hp, q2]
    simp [List.range_succ]
  · rw [runAllTimeouts_eq, hp, q3, hc]
  · rw [runAllTimeouts_eq, hp, q4, hp]
    simp

/-- C6 fails as stated: a template is selected on the page as loaded and,
before its deferred layer creation has run, a second template is selected;
once both deferred creations have run the store holds two layers. -/
theorem reselect_before_timeout_two_layers :
    (selectTemplate templateT1 (initial none true)).pendingTimeouts = 1 ∧
    (runAllTimeouts (fun k => k + 11)
      (selectTemplate templateT2 (selectTemplate templateT1 (initial none true)))).layers.length
      = 2 := by
  refine ⟨rfl, ?_⟩
  have h := congrArg List.length
    (runTimeouts_fold [11, 12]
      (selectTemplate templateT2 (selectTemplate templateT1 (initial none true)))
      (by decide)).1
  rw [runAllTimeouts_eq]
  simpa [layerIds] using h

end MemeEditor
